import Mathlib

set_option autoImplicit false

/-!
Verification of the VPC resource-set builder (pkg/cfn/builder/vpc_ipv4.go).

The Go source is shallowly embedded: CloudFormation intrinsic values (gfnt.Value)
become an inductive `Value`; the resource declarations emitted through the
resource-graph builder become an ordered association list of named `Resource`s;
the builder methods become pure functions threading that list; fallible paths
return `Except`, and the one unguarded index access is modelled with `Option`.
Go maps keyed by subnet name are modelled as association lists in enumeration
order (Go's map iteration order is captured as the order of the list).
-/

namespace VpcBuilder

/-- CloudFormation intrinsic values, the fragment of gfnt.Value used by the builder:
literal strings, by-name references, GetAtt on a named resource, Fn::Select over the
secondary-CIDR slice pool. -/
inductive Value where
  | str (s : String)
  | ref (name : String)
  | getAttStr (res attr : String)
  | select (idx : Nat) (arr : Value)
  | subnetSlices (count : Nat)
deriving DecidableEq

/-- A resource tag (gfncfn.Tag). -/
structure Tag where
  key : String
  value : String
deriving DecidableEq

/-- The resource declarations emitted by vpc_ipv4.go, with the fields the source sets.
`route` keeps GatewayId and NatGatewayId separately (the source sets exactly one of them);
`subnetRouteTableAssociation` keeps the possibly-nil route-table pointer as an `Option`. -/
inductive Resource where
  | vpc (cidrBlock : String)
  | vpcCidrBlock (vpcId : Value)
  | internetGateway
  | vpcGatewayAttachment (internetGatewayId vpcId : Value)
  | routeTable (vpcId : Value)
  | route (routeTableId : Value) (destinationCidrBlock : String)
      (gatewayId : Option Value) (natGatewayId : Option Value) (dependsOn : List String)
  | subnet (availabilityZone cidrBlock : String) (vpcId : Value)
      (tags : List Tag) (mapPublicIpOnLaunch : Bool)
  | subnetRouteTableAssociation (subnetId : Value) (routeTableId : Option Value)
  | subnetCidrBlock (subnetId : Value) (ipv6CidrBlock : Value)
  | eip (domain : String)
  | natGateway (allocationId subnetId : Value)
deriving DecidableEq

/-- The in-progress resource graph: named declarations in emission order. -/
abbrev ResourceSet := List (String × Resource)

/-- Modelled from the spec: the generic resource-graph builder (`resourceSet`, spec section 6)
is outside src/; `declare(name, resourceSpec) -> reference` appends a named declaration and
returns an opaque by-name reference usable in later declarations. -/
def newResource (rs : ResourceSet) (name : String) (r : Resource) : ResourceSet × Value :=
  (rs ++ [(name, r)], Value.ref name)

/-- api.AZSubnetSpec: availability zone, address block, optional pre-existing identifier. -/
structure AZSubnetSpec where
  AZ : String
  CIDR : String
  ID : String
deriving DecidableEq

/-- The per-role subnet mappings (ClusterSubnets); Go's nil map is `none`, and each map
is carried as its name-keyed entries in enumeration order. -/
structure ClusterSubnets where
  Private : Option (List (String × AZSubnetSpec))
  Public : Option (List (String × AZSubnetSpec))
deriving DecidableEq

/-- VPC.NAT; the Gateway mode pointer is modelled dereferenced. -/
structure ClusterNAT where
  Gateway : String
deriving DecidableEq

/-- The VPC section of the cluster configuration, restricted to the fields the builder reads. -/
structure ClusterVPC where
  ID : String
  CIDR : String
  NAT : ClusterNAT
  AutoAllocateIPv6 : Bool
  Subnets : ClusterSubnets
deriving DecidableEq

/-- The cluster configuration, restricted to the fields the builder reads.
`PrivateClusterEnabled` is clusterConfig.PrivateCluster.Enabled. -/
structure ClusterConfig where
  VPC : ClusterVPC
  AvailabilityZones : List String
  PrivateClusterEnabled : Bool
deriving DecidableEq

/-- An output descriptor for one declared subnet (SubnetResource). -/
structure SubnetResource where
  Subnet : Value
  RouteTable : Option Value
  AvailabilityZone : String
deriving DecidableEq

/-- The two per-role SubnetResource collections (SubnetDetails). -/
structure SubnetDetails where
  Private : List SubnetResource
  Public : List SubnetResource
deriving DecidableEq

/-- strings.ToUpper(strings.Join(strings.Split(s, "-"), "")): drop the dashes and
uppercase (ASCII suffices for zone and subnet names). -/
def upperNoDash (s : String) : String :=
  String.mk ((s.data.filter (fun c => c ≠ '-')).map Char.toUpper)

/-- Modelled from the spec: `formatAZ` (called by haNAT) is defined outside src/; per the
naming convention of spec section 6 and the inline transformation used by singleNAT and
noNAT, it strips the separators from the zone name and uppercases it. -/
def formatAZ (az : String) : String := upperNoDash az

/-- Modelled from the spec: the `InternetCIDR` constant is defined outside src/; the spec
names the default-route destination 0.0.0.0/0. -/
def InternetCIDR : String := "0.0.0.0/0"

/-- Modelled from the spec: `getSubnetIPv6CIDRBlock` is defined outside src/; it yields the
precomputed pool of secondary address-block slices of the given size (spec section 4.2),
modelled as an opaque value recording the pool size. -/
def getSubnetIPv6CIDRBlock (count : Nat) : Value := Value.subnetSlices count

/-- Modelled from the spec: NAT mode constant (api package, outside src/), spec section 3:
the HighlyAvailable member of the closed NAT-mode enum. -/
def ClusterHighlyAvailableNAT : String := "HighlyAvailable"

/-- Modelled from the spec: NAT mode constant (api package, outside src/): Single. -/
def ClusterSingleNAT : String := "Single"

/-- Modelled from the spec: NAT mode constant (api package, outside src/): Disabled. -/
def ClusterDisableNAT : String := "Disabled"

/-- api.SubnetTopology, with its string rendering used in resource names. -/
inductive SubnetTopology where
  | Private
  | Public
deriving DecidableEq

def SubnetTopology.toStr : SubnetTopology → String
  | .Private => "Private"
  | .Public => "Public"

def isFullyPrivate (cfg : ClusterConfig) : Bool := cfg.PrivateClusterEnabled

/-- The starting secondary-CIDR index of an addSubnets pass (the subnetIndexForIPv6
initialisation of vpc_ipv4.go lines 179-188). -/
def subnetIndexStart (cfg : ClusterConfig) (topology : SubnetTopology) : Nat :=
  if cfg.VPC.AutoAllocateIPv6 then
    match topology with
    | .Private => cfg.AvailabilityZones.length
    | .Public => 0
  else 0

/-- The loop body of addSubnets (vpc_ipv4.go lines 192-237), threading the resource set,
the secondary-CIDR index and the collected SubnetResources. For the private topology the
passed route-table reference is overridden per subnet by the by-name reference
PrivateRouteTable ++ nameAlias, where nameAlias comes from the mapping key. -/
def addSubnetsGo (cfg : ClusterConfig) (vpcID : Value) (refRT : Option Value)
    (topology : SubnetTopology) :
    List (String × AZSubnetSpec) → Nat → ResourceSet → List SubnetResource →
    ResourceSet × List SubnetResource
  | [], _, rs, acc => (rs, acc)
  | (name, spec) :: rest, subnetIndexForIPv6, rs, acc =>
    let az := spec.AZ
    let nameAlias := upperNoDash name
    let tags : List Tag :=
      match topology with
      | .Private => [⟨"kubernetes.io/role/internal-elb", "1"⟩]
      | .Public => [⟨"kubernetes.io/role/elb", "1"⟩]
    let refRT2 : Option Value :=
      match topology with
      | .Private => some (Value.ref ("PrivateRouteTable" ++ nameAlias))
      | .Public => refRT
    let mapPublicIpOnLaunch : Bool :=
      match topology with
      | .Private => false
      | .Public => true
    let subnetAlias := topology.toStr ++ nameAlias
    let step1 := newResource rs ("Subnet" ++ subnetAlias)
      (.subnet az spec.CIDR vpcID tags mapPublicIpOnLaunch)
    let rs1 := step1.1
    let refSubnet := step1.2
    let rs2 := (newResource rs1 ("RouteTableAssociation" ++ subnetAlias)
      (.subnetRouteTableAssociation refSubnet refRT2)).1
    let step3 : ResourceSet × Nat :=
      if cfg.VPC.AutoAllocateIPv6 then
        let refSubnetSlices := getSubnetIPv6CIDRBlock (cfg.AvailabilityZones.length * 2 + 2)
        ((newResource rs2 (subnetAlias ++ "CIDRv6")
          (.subnetCidrBlock refSubnet (.select subnetIndexForIPv6 refSubnetSlices))).1,
          subnetIndexForIPv6 + 1)
      else (rs2, subnetIndexForIPv6)
    addSubnetsGo cfg vpcID refRT topology rest step3.2 step3.1
      (acc ++ [⟨refSubnet, refRT2, az⟩])

/-- addSubnets (vpc_ipv4.go lines 178-239). -/
def addSubnets (cfg : ClusterConfig) (vpcID : Value) (refRT : Option Value)
    (topology : SubnetTopology) (subnets : List (String × AZSubnetSpec)) (rs : ResourceSet) :
    ResourceSet × List SubnetResource :=
  addSubnetsGo cfg vpcID refRT topology subnets (subnetIndexStart cfg topology) rs []

/-- The per-zone loop of haNAT (vpc_ipv4.go lines 377-405). -/
def haNATGo (vpcID : Value) : List String → ResourceSet → ResourceSet
  | [], rs => rs
  | az :: rest, rs =>
    let a := formatAZ az
    let rs1 := (newResource rs ("NATIP" ++ a) (.eip "vpc")).1
    let step2 := newResource rs1 ("NATGateway" ++ a)
      (.natGateway (.getAttStr ("NATIP" ++ a) "AllocationId") (.ref ("SubnetPublic" ++ a)))
    let refNG := step2.2
    let step3 := newResource step2.1 ("PrivateRouteTable" ++ a) (.routeTable vpcID)
    let refRT := step3.2
    let rs4 := (newResource step3.1 ("NATPrivateSubnetRoute" ++ a)
      (.route refRT InternetCIDR none (some refNG) [])).1
    let rs5 := (newResource rs4 ("RouteTableAssociationPrivate" ++ a)
      (.subnetRouteTableAssociation (.ref ("SubnetPrivate" ++ a)) (some refRT))).1
    haNATGo vpcID rest rs5

/-- haNAT (vpc_ipv4.go lines 376-406): per zone one EIP, one NAT gateway in that zone's
public subnet, one private route table, its default route, and its association. -/
def haNAT (cfg : ClusterConfig) (vpcID : Value) (rs : ResourceSet) : ResourceSet :=
  haNATGo vpcID cfg.AvailabilityZones rs

/-- The per-zone loop of singleNAT (vpc_ipv4.go lines 420-436). -/
def singleNATGo (vpcID refNG : Value) : List String → ResourceSet → ResourceSet
  | [], rs => rs
  | az :: rest, rs =>
    let a := upperNoDash az
    let step1 := newResource rs ("PrivateRouteTable" ++ a) (.routeTable vpcID)
    let refRT := step1.2
    let rs2 := (newResource step1.1 ("NATPrivateSubnetRoute" ++ a)
      (.route refRT InternetCIDR none (some refNG) [])).1
    let rs3 := (newResource rs2 ("RouteTableAssociationPrivate" ++ a)
      (.subnetRouteTableAssociation (.ref ("SubnetPrivate" ++ a)) (some refRT))).1
    singleNATGo vpcID refNG rest rs3

/-- singleNAT (vpc_ipv4.go lines 408-437). The source indexes AvailabilityZones[0] with no
guard; the empty zone list is an out-of-range abort, modelled as `none`. -/
def singleNAT (cfg : ClusterConfig) (vpcID : Value) (rs : ResourceSet) : Option ResourceSet :=
  match cfg.AvailabilityZones with
  | [] => none
  | first :: _ =>
    let firstUpperAZ := upperNoDash first
    let rs1 := (newResource rs "NATIP" (.eip "vpc")).1
    let step2 := newResource rs1 "NATGateway"
      (.natGateway (.getAttStr "NATIP" "AllocationId") (.ref ("SubnetPublic" ++ firstUpperAZ)))
    some (singleNATGo vpcID step2.2 cfg.AvailabilityZones step2.1)

/-- The per-zone loop of noNAT (vpc_ipv4.go lines 440-450). -/
def noNATGo (vpcID : Value) : List String → ResourceSet → ResourceSet
  | [], rs => rs
  | az :: rest, rs =>
    let a := upperNoDash az
    let step1 := newResource rs ("PrivateRouteTable" ++ a) (.routeTable vpcID)
    let refRT := step1.2
    let rs2 := (newResource step1.1 ("RouteTableAssociationPrivate" ++ a)
      (.subnetRouteTableAssociation (.ref ("SubnetPrivate" ++ a)) (some refRT))).1
    noNATGo vpcID rest rs2

/-- noNAT (vpc_ipv4.go lines 439-451): per zone a private route table and its association
only — no gateway and no route. -/
def noNAT (cfg : ClusterConfig) (vpcID : Value) (rs : ResourceSet) : ResourceSet :=
  noNATGo vpcID cfg.AvailabilityZones rs

/-- Result of a NAT-strategy dispatch: success, a configuration error returned with the
graph in its state at that point, or an abort (out-of-range access). -/
inductive NATResult where
  | ok (rs : ResourceSet)
  | err (rs : ResourceSet) (msg : String)
  | abort
deriving DecidableEq

/-- addNATGateways (vpc_ipv4.go lines 241-254): the switch over the NAT mode; an
unmatched mode returns a configuration error with the graph untouched. -/
def addNATGateways (cfg : ClusterConfig) (vpcID : Value) (rs : ResourceSet) : NATResult :=
  if cfg.VPC.NAT.Gateway = ClusterHighlyAvailableNAT then .ok (haNAT cfg vpcID rs)
  else if cfg.VPC.NAT.Gateway = ClusterSingleNAT then
    match singleNAT cfg vpcID rs with
    | some rs2 => .ok rs2
    | none => .abort
  else if cfg.VPC.NAT.Gateway = ClusterDisableNAT then .ok (noNAT cfg vpcID rs)
  else .err rs (cfg.VPC.NAT.Gateway ++ " is not a valid NAT gateway mode")

/-- A route-table association as reported by the remote directory (ec2.RouteTableAssociation):
the associated subnet and whether the association is to the main route table
(the source's nil-able Main pointer collapses to false when nil). -/
structure RouteTableAssociationRecord where
  SubnetId : String
  Main : Bool
deriving DecidableEq

/-- A route-table record as reported by the remote directory (ec2.RouteTable). -/
structure RouteTableRecord where
  RouteTableId : String
  Associations : List RouteTableAssociationRecord
deriving DecidableEq

/-- Modelled from the spec: the remote directory service (spec section 6) is an external
collaborator; its paginated DescribeRouteTables query, pages flattened, returns the records
having at least one association whose subnet is among the requested identifiers. -/
def describeRouteTables (directory : List RouteTableRecord) (subnetIDs : List String) :
    List RouteTableRecord :=
  directory.filter (fun rt => rt.Associations.any (fun a => subnetIDs.contains a.SubnetId))

/-- Go map insertion (overwrite on an existing key, append otherwise), on the
association-list model of map[string]string. -/
def mapInsert (m : List (String × String)) (k v : String) : List (String × String) :=
  if m.any (fun p => p.1 = k) then
    m.map (fun p => if p.1 = k then (k, v) else p)
  else m ++ [(k, v)]

/-- Go map lookup on the association-list model. -/
def mLookup : List (String × String) → String → Option String
  | [], _ => none
  | p :: rest, k => if p.1 = k then some p.2 else mLookup rest k

/-- The invariant-violation error of importRouteTables (vpc_ipv4.go line 346). -/
def mainRouteTableError : String :=
  "subnets must be associated with a non-main route table; eksctl does not modify the main route table"

/-- The not-found error of makeSubnetResources (vpc_ipv4.go lines 300-301), naming the subnet. -/
def subnetNotFoundError (id : String) : String :=
  "failed to find an explicit route table associated with subnet \"" ++ id ++
    "\"; eksctl does not modify the main route table if a subnet is not associated with an explicit route table"

/-- The inner association loop of importRouteTables (vpc_ipv4.go lines 344-349): reject a
main association, otherwise record subnet -> route table. -/
def addAssociations (rtID : String) :
    List RouteTableAssociationRecord → List (String × String) →
    Except String (List (String × String))
  | [], m => .ok m
  | rta :: rest, m =>
    if rta.Main then .error mainRouteTableError
    else addAssociations rtID rest (mapInsert m rta.SubnetId rtID)

/-- The outer record loop of importRouteTables (vpc_ipv4.go lines 343-350). -/
def buildSubnetRoutes :
    List RouteTableRecord → List (String × String) → Except String (List (String × String))
  | [], m => .ok m
  | rt :: rest, m =>
    match addAssociations rt.RouteTableId rt.Associations m with
    | .error e => .error e
    | .ok m2 => buildSubnetRoutes rest m2

/-- importRouteTables (vpc_ipv4.go lines 311-352): query the directory for the subnets'
route-table records, then build the subnet -> route-table mapping, rejecting any main
association. -/
def importRouteTables (directory : List RouteTableRecord)
    (subnets : List (String × AZSubnetSpec)) : Except String (List (String × String)) :=
  let subnetIDs := subnets.map (fun p => p.2.ID)
  let routeTables := describeRouteTables directory subnetIDs
  buildSubnetRoutes routeTables []

/-- The loop of makeSubnetResources (vpc_ipv4.go lines 287-309), accumulating in order. -/
def makeSubnetResourcesGo (subnetRoutes : Option (List (String × String))) :
    List (String × AZSubnetSpec) → List SubnetResource → Except String (List SubnetResource)
  | [], acc => .ok acc
  | (_, network) :: rest, acc =>
    match subnetRoutes with
    | none =>
      makeSubnetResourcesGo subnetRoutes rest
        (acc ++ [⟨Value.str network.ID, none, network.AZ⟩])
    | some routes =>
      match mLookup routes network.ID with
      | none => .error (subnetNotFoundError network.ID)
      | some rt =>
        makeSubnetResourcesGo subnetRoutes rest
          (acc ++ [⟨Value.str network.ID, some (Value.str rt), network.AZ⟩])

/-- makeSubnetResources (vpc_ipv4.go lines 287-309): wrap each pre-existing subnet
identifier, resolving its route table through the mapping when one is supplied. -/
def makeSubnetResources (subnets : List (String × AZSubnetSpec))
    (subnetRoutes : Option (List (String × String))) : Except String (List SubnetResource) :=
  makeSubnetResourcesGo subnetRoutes subnets []

/-- importResources (vpc_ipv4.go lines 256-285): the import path; reads the directory for a
fully-private import, produces the SubnetDetails, and leaves the resource graph untouched
(the graph is threaded to witness the frame property). -/
def importResources (cfg : ClusterConfig) (directory : List RouteTableRecord)
    (rs : ResourceSet) : ResourceSet × Except String SubnetDetails :=
  let privStep : Except String (List SubnetResource) :=
    match cfg.VPC.Subnets.Private with
    | none => .ok []
    | some subnets =>
      let routesE : Except String (Option (List (String × String))) :=
        if isFullyPrivate cfg then Except.map some (importRouteTables directory subnets)
        else .ok none
      match routesE with
      | .error e => .error e
      | .ok subnetRoutes => makeSubnetResources subnets subnetRoutes
  match privStep with
  | .error e => (rs, .error e)
  | .ok priv =>
    match cfg.VPC.Subnets.Public with
    | none => (rs, .ok ⟨priv, []⟩)
    | some subnets =>
      match makeSubnetResources subnets none with
      | .error e => (rs, .error e)
      | .ok pub => (rs, .ok ⟨priv, pub⟩)

/-- Result of addResources: the graph and details on success; on error the graph in its
state at the failure point (the details of a failed build are discarded); abort for the
unguarded out-of-range access. -/
inductive BuildResult where
  | ok (rs : ResourceSet) (details : SubnetDetails)
  | err (rs : ResourceSet) (msg : String)
  | abort
deriving DecidableEq

/-- addResources (vpc_ipv4.go lines 78-126): import path when a VPC identifier is present;
otherwise the optional secondary VPC CIDR block, then either the fully-private build
(noNAT plus private subnets) or the gatewayed build (internet gateway, attachment, public
route table and route, public subnets, NAT strategy, private subnets). -/
def addResources (cfg : ClusterConfig) (directory : List RouteTableRecord)
    (vpcID : Value) (rs : ResourceSet) : BuildResult :=
  if cfg.VPC.ID ≠ "" then
    match importResources cfg directory rs with
    | (rs2, .error e) => .err rs2 ("error importing VPC resources: " ++ e)
    | (rs2, .ok details) => .ok rs2 details
  else
    let rs0 :=
      if cfg.VPC.AutoAllocateIPv6 then
        (newResource rs "AutoAllocatedCIDRv6" (.vpcCidrBlock vpcID)).1
      else rs
    if isFullyPrivate cfg then
      let rs1 := noNAT cfg vpcID rs0
      let stepPriv := addSubnets cfg vpcID none .Private (cfg.VPC.Subnets.Private.getD []) rs1
      .ok stepPriv.1 ⟨stepPriv.2, []⟩
    else
      let step1 := newResource rs0 "InternetGateway" .internetGateway
      let refIG := step1.2
      let rs2 := (newResource step1.1 "VPCGatewayAttachment"
        (.vpcGatewayAttachment refIG vpcID)).1
      let step3 := newResource rs2 "PublicRouteTable" (.routeTable vpcID)
      let refPublicRT := step3.2
      let rs4 := (newResource step3.1 "PublicSubnetRoute"
        (.route refPublicRT InternetCIDR (some refIG) none ["VPCGatewayAttachment"])).1
      let stepPub := addSubnets cfg vpcID (some refPublicRT) .Public
        (cfg.VPC.Subnets.Public.getD []) rs4
      match addNATGateways cfg vpcID stepPub.1 with
      | .err rs5 e => .err rs5 e
      | .abort => .abort
      | .ok rs5 =>
        let stepPriv := addSubnets cfg vpcID none .Private (cfg.VPC.Subnets.Private.getD []) rs5
        .ok stepPriv.1 ⟨stepPriv.2, stepPub.2⟩

/-- NewIPv4VPCResourceSet (vpc_ipv4.go lines 47-66): declare the VPC when no identifier
is given, otherwise use the identifier as the reference. -/
def NewIPv4VPCResourceSet (cfg : ClusterConfig) (rs : ResourceSet) : ResourceSet × Value :=
  if cfg.VPC.ID = "" then newResource rs "VPC" (.vpc cfg.VPC.CIDR)
  else (rs, Value.str cfg.VPC.ID)

/-- The whole resource-declaring build (NewIPv4VPCResourceSet followed by addResources)
on a fresh graph; addOutputs declares outputs, not resources, and is out of scope. -/
def buildVPC (cfg : ClusterConfig) (directory : List RouteTableRecord) : BuildResult :=
  let step := NewIPv4VPCResourceSet cfg []
  addResources cfg directory step.2 step.1

/-- The composition the fully-private import uses for private subnets
(importResources lines 262-272). -/
def importPrivateSubnets (directory : List RouteTableRecord)
    (subnets : List (String × AZSubnetSpec)) : Except String (List SubnetResource) :=
  match importRouteTables directory subnets with
  | .error e => .error e
  | .ok routes => makeSubnetResources subnets (some routes)


/-! Closed-form mirrors of the builder loops and measurement helpers, used by the
theorems below. -/

/-- The route-table reference an addSubnets iteration records for a subnet entry. -/
def subnetRT (refRT : Option Value) (topology : SubnetTopology) (name : String) : Option Value :=
  match topology with
  | .Private => some (Value.ref ("PrivateRouteTable" ++ upperNoDash name))
  | .Public => refRT

/-- The role tag addSubnets attaches. -/
def subnetTags (topology : SubnetTopology) : List Tag :=
  match topology with
  | .Private => [⟨"kubernetes.io/role/internal-elb", "1"⟩]
  | .Public => [⟨"kubernetes.io/role/elb", "1"⟩]

/-- Whether addSubnets sets MapPublicIpOnLaunch. -/
def subnetMapPublic : SubnetTopology → Bool
  | .Private => false
  | .Public => true

/-- The declarations one addSubnets pass appends, in order. -/
def subnetDecls (cfg : ClusterConfig) (vpcID : Value) (refRT : Option Value)
    (topology : SubnetTopology) : List (String × AZSubnetSpec) → Nat → List (String × Resource)
  | [], _ => []
  | (name, spec) :: rest, idx =>
    let subnetAlias := topology.toStr ++ upperNoDash name
    ("Subnet" ++ subnetAlias,
      .subnet spec.AZ spec.CIDR vpcID (subnetTags topology) (subnetMapPublic topology)) ::
    ("RouteTableAssociation" ++ subnetAlias,
      .subnetRouteTableAssociation (.ref ("Subnet" ++ subnetAlias))
        (subnetRT refRT topology name)) ::
    ((if cfg.VPC.AutoAllocateIPv6 then
        [(subnetAlias ++ "CIDRv6",
          Resource.subnetCidrBlock (.ref ("Subnet" ++ subnetAlias))
            (.select idx (.subnetSlices (cfg.AvailabilityZones.length * 2 + 2))))]
      else []) ++
      subnetDecls cfg vpcID refRT topology rest
        (if cfg.VPC.AutoAllocateIPv6 then idx + 1 else idx))

/-- The SubnetResources one addSubnets pass returns, in order. -/
def subnetResourcesOf (refRT : Option Value) (topology : SubnetTopology) :
    List (String × AZSubnetSpec) → List SubnetResource
  | [] => []
  | (name, spec) :: rest =>
    ⟨Value.ref ("Subnet" ++ topology.toStr ++ upperNoDash name),
      subnetRT refRT topology name, spec.AZ⟩ :: subnetResourcesOf refRT topology rest

/-- The declarations haNAT appends, in order. -/
def haNATDecls (vpcID : Value) : List String → List (String × Resource)
  | [] => []
  | az :: rest =>
    let a := formatAZ az
    ("NATIP" ++ a, .eip "vpc") ::
    ("NATGateway" ++ a,
      .natGateway (.getAttStr ("NATIP" ++ a) "AllocationId") (.ref ("SubnetPublic" ++ a))) ::
    ("PrivateRouteTable" ++ a, .routeTable vpcID) ::
    ("NATPrivateSubnetRoute" ++ a,
      .route (.ref ("PrivateRouteTable" ++ a)) InternetCIDR none
        (some (.ref ("NATGateway" ++ a))) []) ::
    ("RouteTableAssociationPrivate" ++ a,
      .subnetRouteTableAssociation (.ref ("SubnetPrivate" ++ a))
        (some (.ref ("PrivateRouteTable" ++ a)))) ::
    haNATDecls vpcID rest

/-- The declarations the per-zone loop of singleNAT appends, in order. -/
def singleNATGoDecls (vpcID refNG : Value) : List String → List (String × Resource)
  | [] => []
  | az :: rest =>
    let a := upperNoDash az
    ("PrivateRouteTable" ++ a, .routeTable vpcID) ::
    ("NATPrivateSubnetRoute" ++ a,
      .route (.ref ("PrivateRouteTable" ++ a)) InternetCIDR none (some refNG) []) ::
    ("RouteTableAssociationPrivate" ++ a,
      .subnetRouteTableAssociation (.ref ("SubnetPrivate" ++ a))
        (some (.ref ("PrivateRouteTable" ++ a)))) ::
    singleNATGoDecls vpcID refNG rest

/-- The declarations singleNAT appends when the zone list starts with `first`. -/
def singleNATDecls (vpcID : Value) (first : String) (azs : List String) :
    List (String × Resource) :=
  ("NATIP", Resource.eip "vpc") ::
  ("NATGateway",
    Resource.natGateway (.getAttStr "NATIP" "AllocationId")
      (.ref ("SubnetPublic" ++ upperNoDash first))) ::
  singleNATGoDecls vpcID (Value.ref "NATGateway") azs

/-- The declarations noNAT appends, in order. -/
def noNATDecls (vpcID : Value) : List String → List (String × Resource)
  | [] => []
  | az :: rest =>
    let a := upperNoDash az
    ("PrivateRouteTable" ++ a, .routeTable vpcID) ::
    ("RouteTableAssociationPrivate" ++ a,
      .subnetRouteTableAssociation (.ref ("SubnetPrivate" ++ a))
        (some (.ref ("PrivateRouteTable" ++ a)))) ::
    noNATDecls vpcID rest

/-! Resource-kind predicates and measurements over a graph. -/

def isEIP : Resource → Bool
  | .eip _ => true
  | _ => false

def isNatGatewayRes : Resource → Bool
  | .natGateway _ _ => true
  | _ => false

def isInternetGatewayRes : Resource → Bool
  | .internetGateway => true
  | _ => false

def isRouteTableRes : Resource → Bool
  | .routeTable _ => true
  | _ => false

/-- A declared subnet marked to map a public address on launch (the builder sets this
exactly on public-topology subnets). -/
def isPublicSubnetRes : Resource → Bool
  | .subnet _ _ _ _ mapPub => mapPub
  | _ => false

/-- Number of declarations of a given kind. -/
def countRes (p : Resource → Bool) (rs : ResourceSet) : Nat :=
  (rs.filter (fun x => p x.2)).length

/-- The route-table declarations of a graph, in order. -/
def routeTableDecls (rs : ResourceSet) : List (String × Resource) :=
  rs.filter (fun x => isRouteTableRes x.2)

/-- The secondary-CIDR indices selected by the subnet CIDR-block declarations, in order. -/
def cidrIndices (rs : ResourceSet) : List Nat :=
  rs.filterMap (fun x =>
    match x.2 with
    | .subnetCidrBlock _ (.select i _) => some i
    | _ => none)

/-- The secondary-CIDR index selected by the declaration of the given name, if any. -/
def cidrIndexOf : ResourceSet → String → Option Nat
  | [], _ => none
  | (n, r) :: rest, name =>
    if n = name then
      match r with
      | .subnetCidrBlock _ (.select i _) => some i
      | _ => none
    else cidrIndexOf rest name

/-- The named secondary-CIDR index in the graph of a successful fresh build. -/
def builtCidrIndexOf (cfg : ClusterConfig) (name : String) : Option Nat :=
  match buildVPC cfg [] with
  | .ok rs _ => cidrIndexOf rs name
  | _ => none

/-- The secondary-CIDR index sequence of the graph of a successful fresh build. -/
def builtCidrIndices (cfg : ClusterConfig) : Option (List Nat) :=
  match buildVPC cfg [] with
  | .ok rs _ => some (cidrIndices rs)
  | _ => none

/-- The resource kinds claim C1 allows in a fully-private graph. -/
def claimedFullyPrivateKinds : Resource → Bool
  | .vpc _ => true
  | .routeTable _ => true
  | .subnet _ _ _ _ _ => true
  | .subnetRouteTableAssociation _ _ => true
  | _ => false

/-- The resource kinds a fully-private create-path graph actually contains: additionally
the secondary address-block declarations, and only non-public subnets. -/
def fullyPrivateAllowed : Resource → Bool
  | .vpc _ => true
  | .vpcCidrBlock _ => true
  | .routeTable _ => true
  | .subnet _ _ _ _ mapPub => !mapPub
  | .subnetRouteTableAssociation _ _ => true
  | .subnetCidrBlock _ _ => true
  | _ => false

/-! Helpers describing the remote directory, for the import-reconciliation claims. -/

/-- Whether any association of the listed records is flagged main. -/
def hasMain (rts : List RouteTableRecord) : Bool :=
  rts.any (fun rt => rt.Associations.any (fun a => a.Main))

/-- The route-table identifiers associated with a subnet, one per association, in record
order. -/
def assocsOf : List RouteTableRecord → String → List String
  | [], _ => []
  | rt :: rest, sid =>
    rt.Associations.filterMap
      (fun a => if a.SubnetId = sid then some rt.RouteTableId else none) ++ assocsOf rest sid

/-- The records the fully-private import query returns for the given subnet specs. -/
def queriedTables (directory : List RouteTableRecord)
    (subnets : List (String × AZSubnetSpec)) : List RouteTableRecord :=
  describeRouteTables directory (subnets.map (fun p => p.2.ID))

/-- The pure (error-free) sweep of the association loops: insert every association of
one record. -/
def insertAssocsPure (rtID : String) :
    List RouteTableAssociationRecord → List (String × String) → List (String × String)
  | [], m => m
  | a :: rest, m => insertAssocsPure rtID rest (mapInsert m a.SubnetId rtID)

/-- The pure (error-free) sweep of the record loop. -/
def routesPure : List RouteTableRecord → List (String × String) → List (String × String)
  | [], m => m
  | rt :: rest, m => routesPure rest (insertAssocsPure rt.RouteTableId rt.Associations m)

/-! Concrete inputs for witnesses and counterexamples. -/

/-- A compact cluster-configuration constructor for concrete instances. -/
def mkCfg (id nat : String) (auto : Bool)
    (priv pub : Option (List (String × AZSubnetSpec))) (azs : List String)
    (fullyPrivate : Bool) : ClusterConfig :=
  { VPC := { ID := id, CIDR := "192.168.0.0/16", NAT := ⟨nat⟩, AutoAllocateIPv6 := auto,
             Subnets := ⟨priv, pub⟩ },
    AvailabilityZones := azs, PrivateClusterEnabled := fullyPrivate }

def cfgNoZones : ClusterConfig := mkCfg "" "Disabled" false none none [] false

def cfgOneZone : ClusterConfig := mkCfg "" "Disabled" false none none ["us-west-2a"] false

def cfgTwoZones : ClusterConfig :=
  mkCfg "" "Single" false none none ["us-west-2a", "us-west-2b"] false

/-- Fully-private create-path build with secondary auto-allocation and no subnets. -/
def cfgAutoPrivate : ClusterConfig := mkCfg "" "Disabled" true none none [] true

/-- Fully-private create-path build, one zone, one private subnet keyed by its zone. -/
def cfgOnePrivate : ClusterConfig :=
  mkCfg "" "Disabled" false
    (some [("us-west-2a", ⟨"us-west-2a", "192.168.32.0/19", ""⟩)]) none ["us-west-2a"] true

def spA : AZSubnetSpec := ⟨"z1", "192.168.32.0/19", ""⟩

def spB : AZSubnetSpec := ⟨"z1", "192.168.64.0/19", ""⟩

/-- Two builds of the same fully-private spec whose private mapping enumerates in the
order a, b. -/
def cfgOrdAB : ClusterConfig :=
  mkCfg "" "Disabled" true (some [("a", spA), ("b", spB)]) none ["z1"] true

/-- The same spec as cfgOrdAB with the opposite enumeration order. -/
def cfgOrdBA : ClusterConfig :=
  mkCfg "" "Disabled" true (some [("b", spB), ("a", spA)]) none ["z1"] true

/-- A gatewayed build with more public subnets than zones: two public subnets, one zone,
one private subnet. -/
def cfgCollide : ClusterConfig :=
  mkCfg "" "Disabled" true
    (some [("r", ⟨"z1", "192.168.96.0/19", ""⟩)])
    (some [("p", ⟨"z1", "192.168.0.0/19", ""⟩), ("q", ⟨"z1", "192.168.32.0/19", ""⟩)])
    ["z1"] false

/-- Two imported private subnets. -/
def subsTwo : List (String × AZSubnetSpec) :=
  [("s1", ⟨"az1", "192.168.0.0/19", "subnet-1"⟩), ("s2", ⟨"az2", "192.168.32.0/19", "subnet-2"⟩)]

/-- A directory whose only record associates subnet-2 with the main table; subnet-1 has no
association on record. -/
def dirMainOnly : List RouteTableRecord := [⟨"rtb-main", [⟨"subnet-2", true⟩]⟩]

/-- A directory giving each of the two subnets exactly one non-main association. -/
def dirBothOK : List RouteTableRecord :=
  [⟨"rtb-1", [⟨"subnet-1", false⟩]⟩, ⟨"rtb-2", [⟨"subnet-2", false⟩]⟩]

/-- A directory with a non-main association for subnet-2 only. -/
def dirMissingS1 : List RouteTableRecord := [⟨"rtb-2", [⟨"subnet-2", false⟩]⟩]

/-- A configuration whose NAT mode is outside the recognized enum. -/
def cfgBadNAT : ClusterConfig := mkCfg "" "NoneOfTheThree" false none none ["us-west-2a"] false

/-- An import-path configuration: a pre-existing VPC identifier and no subnet specs. -/
def cfgImport : ClusterConfig := mkCfg "vpc-12345" "Disabled" false none none ["us-west-2a"] false

/-- The secondary-CIDR index sequence of the graph of a successful build against a
directory. -/
def builtCidrIndicesD (cfg : ClusterConfig) (directory : List RouteTableRecord) :
    Option (List Nat) :=
  match buildVPC cfg directory with
  | .ok rs _ => some (cidrIndices rs)
  | _ => none

/-- The private subnet entries of a configuration (empty when the map is nil). -/
def privList (cfg : ClusterConfig) : List (String × AZSubnetSpec) :=
  cfg.VPC.Subnets.Private.getD []

/-- The public subnet entries of a configuration (empty when the map is nil). -/
def pubList (cfg : ClusterConfig) : List (String × AZSubnetSpec) :=
  cfg.VPC.Subnets.Public.getD []

/-- The declarations of a fresh build before topology selection: the VPC and, when
secondary auto-allocation is on, its secondary CIDR block. -/
def baseDecls (cfg : ClusterConfig) : ResourceSet :=
  if cfg.VPC.AutoAllocateIPv6 then
    [("VPC", Resource.vpc cfg.VPC.CIDR),
     ("AutoAllocatedCIDRv6", Resource.vpcCidrBlock (Value.ref "VPC"))]
  else [("VPC", Resource.vpc cfg.VPC.CIDR)]

/-- The gateway-side declarations of a gatewayed build. -/
def gatewayDecls (vpcID : Value) : ResourceSet :=
  [("InternetGateway", Resource.internetGateway),
   ("VPCGatewayAttachment", Resource.vpcGatewayAttachment (.ref "InternetGateway") vpcID),
   ("PublicRouteTable", Resource.routeTable vpcID),
   ("PublicSubnetRoute", Resource.route (.ref "PublicRouteTable") InternetCIDR
     (some (.ref "InternetGateway")) none ["VPCGatewayAttachment"])]

/-- Everything a gatewayed fresh build declares before the NAT strategy runs. -/
def preNATDecls (cfg : ClusterConfig) : ResourceSet :=
  baseDecls cfg ++ gatewayDecls (Value.ref "VPC") ++
    subnetDecls cfg (Value.ref "VPC") (some (Value.ref "PublicRouteTable")) .Public
      (pubList cfg) (subnetIndexStart cfg .Public)

/-- Whether a record carries an association for the given subnet. -/
def recordHas (rt : RouteTableRecord) (sid : String) : Bool :=
  rt.Associations.any (fun a => a.SubnetId = sid)

/-- The route-table identifier the association map ends up holding for a subnet after an
error-free sweep: the last record (in iteration order) with an association for it wins. -/
def lookupAssoc : List RouteTableRecord → String → Option String
  | [], _ => none
  | rt :: rest, sid =>
    match lookupAssoc rest sid with
    | some v => some v
    | none => if recordHas rt sid then some rt.RouteTableId else none

/-! Characterization theorems for the builder loops. -/

theorem addSubnetsGo_eq (cfg : ClusterConfig) (vpcID : Value) (refRT : Option Value)
    (topology : SubnetTopology) (subs : List (String × AZSubnetSpec)) :
    ∀ (idx : Nat) (rs : ResourceSet) (acc : List SubnetResource),
    addSubnetsGo cfg vpcID refRT topology subs idx rs acc =
      (rs ++ subnetDecls cfg vpcID refRT topology subs idx,
       acc ++ subnetResourcesOf refRT topology subs) := by
  induction subs with
  | nil => intro idx rs acc; simp [addSubnetsGo, subnetDecls, subnetResourcesOf]
  | cons hd rest ih =>
    intro idx rs acc
    obtain ⟨name, spec⟩ := hd
    cases topology <;> by_cases h : cfg.VPC.AutoAllocateIPv6 <;>
      simp [addSubnetsGo, subnetDecls, subnetResourcesOf, newResource, subnetTags, subnetRT,
        subnetMapPublic, getSubnetIPv6CIDRBlock, h, ih, String.append_assoc]

theorem addSubnets_eq (cfg : ClusterConfig) (vpcID : Value) (refRT : Option Value)
    (topology : SubnetTopology) (subs : List (String × AZSubnetSpec)) (rs : ResourceSet) :
    addSubnets cfg vpcID refRT topology subs rs =
      (rs ++ subnetDecls cfg vpcID refRT topology subs (subnetIndexStart cfg topology),
       subnetResourcesOf refRT topology subs) := by
  simp [addSubnets, addSubnetsGo_eq]

theorem haNATGo_eq (vpcID : Value) (azs : List String) :
    ∀ rs, haNATGo vpcID azs rs = rs ++ haNATDecls vpcID azs := by
  induction azs with
  | nil => intro rs; simp [haNATGo, haNATDecls]
  | cons az rest ih => intro rs; simp [haNATGo, haNATDecls, newResource, ih]

theorem haNAT_eq (cfg : ClusterConfig) (vpcID : Value) (rs : ResourceSet) :
    haNAT cfg vpcID rs = rs ++ haNATDecls vpcID cfg.AvailabilityZones := by
  simp [haNAT, haNATGo_eq]

theorem singleNATGo_eq (vpcID refNG : Value) (azs : List String) :
    ∀ rs, singleNATGo vpcID refNG azs rs = rs ++ singleNATGoDecls vpcID refNG azs := by
  induction azs with
  | nil => intro rs; simp [singleNATGo, singleNATGoDecls]
  | cons az rest ih => intro rs; simp [singleNATGo, singleNATGoDecls, newResource, ih]

theorem singleNAT_eq (cfg : ClusterConfig) (vpcID : Value) (rs : ResourceSet)
    (first : String) (rest : List String) (h : cfg.AvailabilityZones = first :: rest) :
    singleNAT cfg vpcID rs =
      some (rs ++ singleNATDecls vpcID first cfg.AvailabilityZones) := by
  simp [singleNAT, h, newResource, singleNATGo_eq, singleNATDecls]

theorem noNATGo_eq (vpcID : Value) (azs : List String) :
    ∀ rs, noNATGo vpcID azs rs = rs ++ noNATDecls vpcID azs := by
  induction azs with
  | nil => intro rs; simp [noNATGo, noNATDecls]
  | cons az rest ih => intro rs; simp [noNATGo, noNATDecls, newResource, ih]

theorem noNAT_eq (cfg : ClusterConfig) (vpcID : Value) (rs : ResourceSet) :
    noNAT cfg vpcID rs = rs ++ noNATDecls vpcID cfg.AvailabilityZones := by
  simp [noNAT, noNATGo_eq]

theorem countRes_append (p : Resource → Bool) (a b : ResourceSet) :
    countRes p (a ++ b) = countRes p a + countRes p b := by
  simp [countRes, List.filter_append]

theorem routeTableDecls_append (a b : ResourceSet) :
    routeTableDecls (a ++ b) = routeTableDecls a ++ routeTableDecls b := by
  simp [routeTableDecls, List.filter_append]

theorem cidrIndices_append (a b : ResourceSet) :
    cidrIndices (a ++ b) = cidrIndices a ++ cidrIndices b := by
  simp [cidrIndices, List.filterMap_append]

/-! Claim C10. -/

/-- Claim C10: singleNAT reads the first availability zone without a guard, so on the
empty zone list the operation aborts with an out-of-range access instead of returning an
error — a non-empty zone list is exactly its success precondition — while haNAT and noNAT
accept the empty zone list and declare nothing. -/
theorem claimC10 (cfg : ClusterConfig) (vpcID : Value) (rs : ResourceSet) :
    (cfg.AvailabilityZones = [] →
      singleNAT cfg vpcID rs = none ∧ haNAT cfg vpcID rs = rs ∧ noNAT cfg vpcID rs = rs) ∧
    (cfg.AvailabilityZones ≠ [] → ∃ rs2, singleNAT cfg vpcID rs = some rs2) := by
  constructor
  · intro h
    refine ⟨by simp [singleNAT, h], ?_, ?_⟩
    · simp [haNAT_eq, h, haNATDecls]
    · simp [noNAT_eq, h, noNATDecls]
  · intro h
    rcases hAz : cfg.AvailabilityZones with _ | ⟨first, rest⟩
    · exact absurd hAz h
    · exact ⟨_, singleNAT_eq cfg vpcID rs first rest hAz⟩

/-- Witness for claim C10 at concrete inputs. -/
theorem claimC10_witness :
    (singleNAT cfgNoZones (Value.ref "VPC") [] = none ∧
      haNAT cfgNoZones (Value.ref "VPC") [] = [] ∧
      noNAT cfgNoZones (Value.ref "VPC") [] = []) ∧
    (∃ rs2, singleNAT cfgOneZone (Value.ref "VPC") [] = some rs2) :=
  ⟨(claimC10 cfgNoZones (Value.ref "VPC") []).1 rfl,
   (claimC10 cfgOneZone (Value.ref "VPC") []).2 (by decide)⟩

/-! Claim C7. -/

/-- Claim C7: on a NAT mode outside HighlyAvailable, Single and Disabled, addNATGateways
returns the configuration error with the graph exactly as passed in — no elastic address,
NAT gateway, private route table, route or association has been declared at that point —
and every error it can return is that configuration error on such a mode with the graph
unchanged: the switch over the three modes is exhaustive. -/
theorem claimC7 (cfg : ClusterConfig) (vpcID : Value) (rs : ResourceSet) :
    (cfg.VPC.NAT.Gateway ∉
        [ClusterHighlyAvailableNAT, ClusterSingleNAT, ClusterDisableNAT] →
      addNATGateways cfg vpcID rs =
        .err rs (cfg.VPC.NAT.Gateway ++ " is not a valid NAT gateway mode")) ∧
    (∀ rs2 msg, addNATGateways cfg vpcID rs = .err rs2 msg →
      rs2 = rs ∧
      cfg.VPC.NAT.Gateway ∉
        [ClusterHighlyAvailableNAT, ClusterSingleNAT, ClusterDisableNAT] ∧
      msg = cfg.VPC.NAT.Gateway ++ " is not a valid NAT gateway mode") := by
  by_cases h1 : cfg.VPC.NAT.Gateway = ClusterHighlyAvailableNAT
  · constructor
    · intro hmem; exact absurd (by simp [h1]) hmem
    · intro rs2 msg h
      unfold addNATGateways at h
      rw [if_pos h1] at h
      exact NATResult.noConfusion h
  · by_cases h2 : cfg.VPC.NAT.Gateway = ClusterSingleNAT
    · constructor
      · intro hmem; exact absurd (by simp [h2]) hmem
      · intro rs2 msg h
        unfold addNATGateways at h
        rw [if_neg h1, if_pos h2] at h
        rcases hs : singleNAT cfg vpcID rs with _ | rs3 <;> rw [hs] at h <;>
          exact NATResult.noConfusion h
    · by_cases h3 : cfg.VPC.NAT.Gateway = ClusterDisableNAT
      · constructor
        · intro hmem; exact absurd (by simp [h3]) hmem
        · intro rs2 msg h
          unfold addNATGateways at h
          rw [if_neg h1, if_neg h2, if_pos h3] at h
          exact NATResult.noConfusion h
      · have hres : addNATGateways cfg vpcID rs =
            .err rs (cfg.VPC.NAT.Gateway ++ " is not a valid NAT gateway mode") := by
          unfold addNATGateways
          rw [if_neg h1, if_neg h2, if_neg h3]
        refine ⟨fun _ => hres, ?_⟩
        intro rs2 msg h
        rw [hres] at h
        rcases h with ⟨⟩
        exact ⟨rfl, by simp [h1, h2, h3], rfl⟩

/-- Witness for claim C7 at a concrete unrecognized mode, exercising both directions. -/
theorem claimC7_witness :
    addNATGateways cfgBadNAT (Value.ref "VPC") [] =
      .err [] ("NoneOfTheThree" ++ " is not a valid NAT gateway mode") ∧
    (([] : ResourceSet) = [] ∧
      cfgBadNAT.VPC.NAT.Gateway ∉
        [ClusterHighlyAvailableNAT, ClusterSingleNAT, ClusterDisableNAT] ∧
      ("NoneOfTheThree" ++ " is not a valid NAT gateway mode" : String) =
        cfgBadNAT.VPC.NAT.Gateway ++ " is not a valid NAT gateway mode") := by
  have h1 := (claimC7 cfgBadNAT (Value.ref "VPC") []).1 (by decide)
  exact ⟨h1, (claimC7 cfgBadNAT (Value.ref "VPC") []).2 [] _ h1⟩

/-! Claim C9. -/

/-- Claim C9: the import path declares nothing: importResources returns the resource graph
exactly as passed, for every configuration, directory and graph, and when a pre-existing
network identifier is present addResources returns (on success or failure) the graph it
was given, untouched. -/
theorem claimC9 (cfg : ClusterConfig) (directory : List RouteTableRecord)
    (vpcID : Value) (rs : ResourceSet) :
    (importResources cfg directory rs).1 = rs ∧
    (cfg.VPC.ID ≠ "" →
      (∀ rs2 details, addResources cfg directory vpcID rs = .ok rs2 details → rs2 = rs) ∧
      (∀ rs2 msg, addResources cfg directory vpcID rs = .err rs2 msg → rs2 = rs)) := by
  have hfst : (importResources cfg directory rs).1 = rs := by
    unfold importResources
    repeat first | rfl | dsimp only | split
  refine ⟨hfst, fun hid => ?_⟩
  have hrw : addResources cfg directory vpcID rs =
      match importResources cfg directory rs with
      | (rs2, .error e) => .err rs2 ("error importing VPC resources: " ++ e)
      | (rs2, .ok details) => .ok rs2 details := by
    unfold addResources
    simp [hid]
  constructor
  · intro rs2 details h
    rw [hrw] at h
    rcases himp : importResources cfg directory rs with ⟨rs3, e⟩
    rw [himp] at h
    have h3 : rs3 = rs := by rw [← hfst, himp]
    cases e <;> simp_all
  · intro rs2 msg h
    rw [hrw] at h
    rcases himp : importResources cfg directory rs with ⟨rs3, e⟩
    rw [himp] at h
    have h3 : rs3 = rs := by rw [← hfst, himp]
    cases e <;> simp_all

/-- Witness for claim C9 at a concrete import configuration: the graph passed in comes back
untouched, both from importResources and from the successful addResources import path. -/
theorem claimC9_witness :
    (importResources cfgImport [] [("X", Resource.internetGateway)]).1 =
      [("X", Resource.internetGateway)] ∧
    ([("X", Resource.internetGateway)] : ResourceSet) = [("X", Resource.internetGateway)] := by
  have h := claimC9 cfgImport [] (Value.str "vpc-12345") [("X", Resource.internetGateway)]
  exact ⟨h.1, (h.2 (by decide)).1 [("X", Resource.internetGateway)] ⟨[], []⟩ (by decide)⟩

/-! Counting and membership lemmas for the strategy declaration lists. -/

theorem routeTableDecls_cons (n : String) (r : Resource) (t : ResourceSet) :
    routeTableDecls ((n, r) :: t) =
      if isRouteTableRes r then (n, r) :: routeTableDecls t else routeTableDecls t := by
  simp [routeTableDecls, List.filter_cons]

theorem countRes_cons (p : Resource → Bool) (n : String) (r : Resource) (t : ResourceSet) :
    countRes p ((n, r) :: t) = (if p r then 1 else 0) + countRes p t := by
  by_cases h : p r <;> simp [countRes, List.filter_cons, h, Nat.add_comm]

theorem routeTableDecls_haNATDecls (vpcID : Value) (azs : List String) :
    routeTableDecls (haNATDecls vpcID azs) =
      azs.map (fun az => ("PrivateRouteTable" ++ formatAZ az, Resource.routeTable vpcID)) := by
  induction azs with
  | nil => rfl
  | cons az rest ih => simp [haNATDecls, routeTableDecls_cons, isRouteTableRes, ih]

theorem routeTableDecls_singleNATGoDecls (vpcID refNG : Value) (azs : List String) :
    routeTableDecls (singleNATGoDecls vpcID refNG azs) =
      azs.map (fun az => ("PrivateRouteTable" ++ upperNoDash az, Resource.routeTable vpcID)) := by
  induction azs with
  | nil => rfl
  | cons az rest ih => simp [singleNATGoDecls, routeTableDecls_cons, isRouteTableRes, ih]

theorem routeTableDecls_noNATDecls (vpcID : Value) (azs : List String) :
    routeTableDecls (noNATDecls vpcID azs) =
      azs.map (fun az => ("PrivateRouteTable" ++ upperNoDash az, Resource.routeTable vpcID)) := by
  induction azs with
  | nil => rfl
  | cons az rest ih => simp [noNATDecls, routeTableDecls_cons, isRouteTableRes, ih]

theorem singleNATGoDecls_count_eip (vpcID refNG : Value) (azs : List String) :
    countRes isEIP (singleNATGoDecls vpcID refNG azs) = 0 := by
  induction azs with
  | nil => rfl
  | cons az rest ih => simp [singleNATGoDecls, countRes_cons, isEIP, ih]

theorem singleNATGoDecls_count_nat (vpcID refNG : Value) (azs : List String) :
    countRes isNatGatewayRes (singleNATGoDecls vpcID refNG azs) = 0 := by
  induction azs with
  | nil => rfl
  | cons az rest ih => simp [singleNATGoDecls, countRes_cons, isNatGatewayRes, ih]

theorem singleNATGoDecls_mem (vpcID refNG : Value) (azs : List String) (az : String)
    (h : az ∈ azs) :
    ("PrivateRouteTable" ++ upperNoDash az, Resource.routeTable vpcID) ∈
        singleNATGoDecls vpcID refNG azs ∧
    ("NATPrivateSubnetRoute" ++ upperNoDash az,
      Resource.route (.ref ("PrivateRouteTable" ++ upperNoDash az)) InternetCIDR none
        (some refNG) []) ∈ singleNATGoDecls vpcID refNG azs := by
  induction azs with
  | nil => cases h
  | cons a rest ih =>
    rcases List.mem_cons.mp h with heq | hmem
    · subst heq
      exact ⟨by simp [singleNATGoDecls], by simp [singleNATGoDecls]⟩
    · exact ⟨by simp [singleNATGoDecls, (ih hmem).1], by simp [singleNATGoDecls, (ih hmem).2]⟩

/-! Claim C5. -/

/-- Claim C5 counterexample: in Single-NAT mode with two availability zones the strategy
declares two private route tables, not exactly one shared table. -/
theorem claimC5_counterexample :
    (singleNAT cfgTwoZones (Value.ref "VPC") []).map (countRes isRouteTableRes) = some 2 ∧
    (2 : Nat) ≠ 1 := by decide

/-- Claim C5 (amended): every strategy declares exactly one private route table per zone
entry: haNAT and noNAT one per zone, and Single-NAT — rather than one shared table — also
one per zone, every one of them default-routing to the single shared NAT gateway (claim
C8); per zone and strategy at most one table is declared, named by the zone alias. -/
theorem claimC5_amended (cfg : ClusterConfig) (vpcID : Value) (rs : ResourceSet) :
    routeTableDecls (haNAT cfg vpcID rs) =
      routeTableDecls rs ++ cfg.AvailabilityZones.map
        (fun az => ("PrivateRouteTable" ++ formatAZ az, Resource.routeTable vpcID)) ∧
    routeTableDecls (noNAT cfg vpcID rs) =
      routeTableDecls rs ++ cfg.AvailabilityZones.map
        (fun az => ("PrivateRouteTable" ++ upperNoDash az, Resource.routeTable vpcID)) ∧
    (∀ first rest, cfg.AvailabilityZones = first :: rest →
      ∃ rs2, singleNAT cfg vpcID rs = some rs2 ∧
        routeTableDecls rs2 =
          routeTableDecls rs ++ cfg.AvailabilityZones.map
            (fun az => ("PrivateRouteTable" ++ upperNoDash az, Resource.routeTable vpcID))) := by
  refine ⟨?_, ?_, ?_⟩
  · rw [haNAT_eq, routeTableDecls_append, routeTableDecls_haNATDecls]
  · rw [noNAT_eq, routeTableDecls_append, routeTableDecls_noNATDecls]
  · intro first rest h
    refine ⟨_, singleNAT_eq cfg vpcID rs first rest h, ?_⟩
    rw [routeTableDecls_append]
    simp [singleNATDecls, routeTableDecls_cons, isRouteTableRes,
      routeTableDecls_singleNATGoDecls]

/-- Witness for the amended claim C5 at a concrete two-zone Single-NAT configuration. -/
theorem claimC5_amended_witness :
    ∃ rs2, singleNAT cfgTwoZones (Value.ref "VPC") [] = some rs2 ∧
      routeTableDecls rs2 =
        routeTableDecls [] ++ cfgTwoZones.AvailabilityZones.map
          (fun az => ("PrivateRouteTable" ++ upperNoDash az,
            Resource.routeTable (Value.ref "VPC"))) :=
  (claimC5_amended cfgTwoZones (Value.ref "VPC") []).2.2 "us-west-2a" ["us-west-2b"] rfl

/-! Claim C8. -/

/-- Claim C8: Single-NAT on a non-empty zone list declares exactly one elastic address and
exactly one NAT gateway, the gateway bound to the public subnet of the first zone in input
order, and gives every zone a private route table with a 0.0.0.0/0 route targeting that one
gateway. -/
theorem claimC8 (cfg : ClusterConfig) (vpcID : Value) (rs : ResourceSet)
    (first : String) (rest : List String) (h : cfg.AvailabilityZones = first :: rest) :
    ∃ rs2, singleNAT cfg vpcID rs = some rs2 ∧
      countRes isEIP rs2 = countRes isEIP rs + 1 ∧
      countRes isNatGatewayRes rs2 = countRes isNatGatewayRes rs + 1 ∧
      ("NATGateway", Resource.natGateway (.getAttStr "NATIP" "AllocationId")
          (.ref ("SubnetPublic" ++ upperNoDash first))) ∈ rs2 ∧
      ∀ az ∈ cfg.AvailabilityZones,
        ("PrivateRouteTable" ++ upperNoDash az, Resource.routeTable vpcID) ∈ rs2 ∧
        ("NATPrivateSubnetRoute" ++ upperNoDash az,
          Resource.route (.ref ("PrivateRouteTable" ++ upperNoDash az)) InternetCIDR none
            (some (.ref "NATGateway")) []) ∈ rs2 := by
  refine ⟨_, singleNAT_eq cfg vpcID rs first rest h, ?_, ?_, ?_, ?_⟩
  · rw [countRes_append]
    simp [singleNATDecls, countRes_cons, isEIP, isNatGatewayRes, singleNATGoDecls_count_eip]
  · rw [countRes_append]
    simp [singleNATDecls, countRes_cons, isEIP, isNatGatewayRes, singleNATGoDecls_count_nat]
  · simp [singleNATDecls]
  · intro az haz
    rw [h] at haz
    have hm := singleNATGoDecls_mem vpcID (Value.ref "NATGateway")
      cfg.AvailabilityZones az (by rw [h]; exact haz)
    exact ⟨List.mem_append_right _ (by simp [singleNATDecls, hm.1]),
      List.mem_append_right _ (by simp [singleNATDecls, hm.2])⟩

/-- Witness for claim C8 at a concrete two-zone configuration, instantiated at the second
zone. -/
theorem claimC8_witness :
    ∃ rs2, singleNAT cfgTwoZones (Value.ref "VPC") [] = some rs2 ∧
      countRes isEIP rs2 = countRes isEIP [] + 1 ∧
      countRes isNatGatewayRes rs2 = countRes isNatGatewayRes [] + 1 ∧
      ("NATGateway", Resource.natGateway (.getAttStr "NATIP" "AllocationId")
          (.ref ("SubnetPublic" ++ upperNoDash "us-west-2a"))) ∈ rs2 ∧
      ("PrivateRouteTable" ++ upperNoDash "us-west-2b",
        Resource.routeTable (Value.ref "VPC")) ∈ rs2 ∧
      ("NATPrivateSubnetRoute" ++ upperNoDash "us-west-2b",
        Resource.route (.ref ("PrivateRouteTable" ++ upperNoDash "us-west-2b")) InternetCIDR
          none (some (.ref "NATGateway")) []) ∈ rs2 := by
  obtain ⟨rs2, h1, h2, h3, h4, h5⟩ :=
    claimC8 cfgTwoZones (Value.ref "VPC") [] "us-west-2a" ["us-west-2b"] rfl
  obtain ⟨h6, h7⟩ := h5 "us-west-2b" (by decide)
  exact ⟨rs2, h1, h2, h3, h4, h6, h7⟩

/-! Membership lemmas for subnet and NAT declarations. -/

theorem subnetResourcesOf_private (refRT : Option Value) (subs : List (String × AZSubnetSpec)) :
    subnetResourcesOf refRT .Private subs =
      subs.map (fun p => ⟨Value.ref ("SubnetPrivate" ++ upperNoDash p.1),
        some (Value.ref ("PrivateRouteTable" ++ upperNoDash p.1)), p.2.AZ⟩) := by
  have hfold : ∀ x : String, "Subnet" ++ SubnetTopology.Private.toStr ++ x =
      "SubnetPrivate" ++ x := fun x => rfl
  induction subs with
  | nil => rfl
  | cons hd rest ih =>
    obtain ⟨name, spec⟩ := hd
    simp [subnetResourcesOf, subnetRT, ih, hfold]

theorem haNATDecls_mem (vpcID : Value) (azs : List String) (az : String) (h : az ∈ azs) :
    ("PrivateRouteTable" ++ formatAZ az, Resource.routeTable vpcID) ∈ haNATDecls vpcID azs := by
  induction azs with
  | nil => cases h
  | cons a rest ih =>
    rcases List.mem_cons.mp h with heq | hmem
    · subst heq; simp [haNATDecls]
    · simp [haNATDecls, ih hmem]

theorem noNATDecls_mem (vpcID : Value) (azs : List String) (az : String) (h : az ∈ azs) :
    ("PrivateRouteTable" ++ upperNoDash az, Resource.routeTable vpcID) ∈ noNATDecls vpcID azs := by
  induction azs with
  | nil => cases h
  | cons a rest ih =>
    rcases List.mem_cons.mp h with heq | hmem
    · subst heq; simp [noNATDecls]
    · simp [noNATDecls, ih hmem]

theorem subnetDecls_cidr_mem (cfg : ClusterConfig) (vpcID : Value) (refRT : Option Value)
    (topology : SubnetTopology) (hAuto : cfg.VPC.AutoAllocateIPv6 = true) :
    ∀ (subs : List (String × AZSubnetSpec)) (idx k : Nat) (hk : k < subs.length),
      (topology.toStr ++ upperNoDash (subs.get ⟨k, hk⟩).1 ++ "CIDRv6",
        Resource.subnetCidrBlock
          (.ref ("Subnet" ++ topology.toStr ++ upperNoDash (subs.get ⟨k, hk⟩).1))
          (.select (idx + k) (.subnetSlices (cfg.AvailabilityZones.length * 2 + 2)))) ∈
        subnetDecls cfg vpcID refRT topology subs idx := by
  intro subs
  induction subs with
  | nil => intro idx k hk; exact absurd hk (by simp)
  | cons hd rest ih =>
    intro idx k hk
    obtain ⟨name, spec⟩ := hd
    cases k with
    | zero =>
      simp [subnetDecls, hAuto, String.append_assoc]
    | succ k =>
      have hmem := ih (idx + 1) k (by simpa using Nat.lt_of_succ_lt_succ hk)
      rw [show idx + (k + 1) = idx + 1 + k from by omega]
      show _ ∈ subnetDecls cfg vpcID refRT topology ((name, spec) :: rest) idx
      simp only [subnetDecls, hAuto, if_true]
      exact List.mem_cons_of_mem _ (List.mem_cons_of_mem _ (List.mem_append_right _ hmem))

/-! Claim C3. -/

/-- Claim C3 counterexample: a private subnet entry keyed "foo" in zone us-west-2a gets the
route-table reference PrivateRouteTableFOO — built from the mapping key, which differs from
the PrivateRouteTable<ZoneAlias> name the NAT strategies declare for the zone. -/
theorem claimC3_counterexample :
    (addSubnets cfgNoZones (Value.ref "VPC") none .Private
        [("foo", ⟨"us-west-2a", "192.168.32.0/19", ""⟩)] []).2 =
      [⟨Value.ref "SubnetPrivateFOO", some (Value.ref "PrivateRouteTableFOO"), "us-west-2a"⟩] ∧
    some (Value.ref "PrivateRouteTableFOO") ≠
      some (Value.ref ("PrivateRouteTable" ++ formatAZ "us-west-2a")) := by decide

/-- Claim C3 (amended): for every private subnet entry the Allocator records, in both the
SubnetResource and the association declaration, the by-name reference
PrivateRouteTable<NameAlias> built from the subnet's logical name (the mapping key), not
from its availability-zone field; the NAT strategies declare each zone's table under
PrivateRouteTable<ZoneAlias>, so the Allocator's reference matches a declared table exactly
when the entry's key aliases to its availability zone, as in the standard zone-keyed
layout. -/
theorem claimC3_amended (cfg : ClusterConfig) (vpcID : Value) (refRT : Option Value)
    (subs : List (String × AZSubnetSpec)) (rs : ResourceSet) :
    (addSubnets cfg vpcID refRT .Private subs rs).2 =
      subs.map (fun p => ⟨Value.ref ("SubnetPrivate" ++ upperNoDash p.1),
        some (Value.ref ("PrivateRouteTable" ++ upperNoDash p.1)), p.2.AZ⟩) ∧
    (∀ az ∈ cfg.AvailabilityZones,
      ("PrivateRouteTable" ++ formatAZ az, Resource.routeTable vpcID) ∈ haNAT cfg vpcID rs ∧
      ("PrivateRouteTable" ++ formatAZ az, Resource.routeTable vpcID) ∈ noNAT cfg vpcID rs) := by
  constructor
  · rw [addSubnets_eq]; exact subnetResourcesOf_private refRT subs
  · intro az haz
    constructor
    · rw [haNAT_eq]; exact List.mem_append_right _ (haNATDecls_mem vpcID _ az haz)
    · rw [noNAT_eq]
      exact List.mem_append_right _ (noNATDecls_mem vpcID _ az haz)

/-- Witness for the amended claim C3 at a concrete zone-keyed entry. -/
theorem claimC3_amended_witness :
    (addSubnets cfgOneZone (Value.ref "VPC") none .Private
        [("us-west-2a", ⟨"us-west-2a", "192.168.32.0/19", ""⟩)] []).2 =
      [("us-west-2a", (⟨"us-west-2a", "192.168.32.0/19", ""⟩ : AZSubnetSpec))].map
        (fun p => ⟨Value.ref ("SubnetPrivate" ++ upperNoDash p.1),
          some (Value.ref ("PrivateRouteTable" ++ upperNoDash p.1)), p.2.AZ⟩) ∧
    ("PrivateRouteTable" ++ formatAZ "us-west-2a",
        Resource.routeTable (Value.ref "VPC")) ∈ haNAT cfgOneZone (Value.ref "VPC") [] ∧
    ("PrivateRouteTable" ++ formatAZ "us-west-2a",
        Resource.routeTable (Value.ref "VPC")) ∈ noNAT cfgOneZone (Value.ref "VPC") [] := by
  have h := claimC3_amended cfgOneZone (Value.ref "VPC") none
    [("us-west-2a", ⟨"us-west-2a", "192.168.32.0/19", ""⟩)] []
  exact ⟨h.1, (h.2 "us-west-2a" (by decide)).1, (h.2 "us-west-2a" (by decide)).2⟩

/-! Claim C6. -/

/-- Claim C6: with secondary auto-allocation enabled, the slice pool size is
2 x zoneCount + 2, the private pass starts at index zoneCount and the public pass at 0, and
the k-th subnet of a pass receives a secondary CIDR-association selecting index start + k
from that pool. -/
theorem claimC6 (cfg : ClusterConfig) (vpcID : Value) (refRT : Option Value)
    (topology : SubnetTopology) (subs : List (String × AZSubnetSpec)) (rs : ResourceSet)
    (hAuto : cfg.VPC.AutoAllocateIPv6 = true) :
    subnetIndexStart cfg .Private = cfg.AvailabilityZones.length ∧
    subnetIndexStart cfg .Public = 0 ∧
    ∀ (k : Nat) (hk : k < subs.length),
      (topology.toStr ++ upperNoDash (subs.get ⟨k, hk⟩).1 ++ "CIDRv6",
        Resource.subnetCidrBlock
          (.ref ("Subnet" ++ topology.toStr ++ upperNoDash (subs.get ⟨k, hk⟩).1))
          (.select (subnetIndexStart cfg topology + k)
            (.subnetSlices (cfg.AvailabilityZones.length * 2 + 2)))) ∈
        (addSubnets cfg vpcID refRT topology subs rs).1 := by
  refine ⟨by simp [subnetIndexStart, hAuto], by simp [subnetIndexStart, hAuto], ?_⟩
  intro k hk
  rw [addSubnets_eq]
  exact List.mem_append_right _
    (subnetDecls_cidr_mem cfg vpcID refRT topology hAuto subs (subnetIndexStart cfg topology) k hk)

/-- Witness for claim C6 at a concrete one-zone private pass. -/
theorem claimC6_witness :
    (SubnetTopology.Private.toStr ++ upperNoDash "a" ++ "CIDRv6",
      Resource.subnetCidrBlock
        (.ref ("Subnet" ++ SubnetTopology.Private.toStr ++ upperNoDash "a"))
        (.select (subnetIndexStart cfgOrdAB .Private + 0)
          (.subnetSlices (cfgOrdAB.AvailabilityZones.length * 2 + 2)))) ∈
      (addSubnets cfgOrdAB (Value.ref "VPC") none .Private [("a", spA)] []).1 :=
  (claimC6 cfgOrdAB (Value.ref "VPC") none .Private [("a", spA)] [] rfl).2.2 0 (by decide)

/-! Whole-build decompositions. -/

theorem buildVPC_fullyPrivate (cfg : ClusterConfig) (directory : List RouteTableRecord)
    (hPriv : isFullyPrivate cfg = true) (hID : cfg.VPC.ID = "") :
    buildVPC cfg directory =
      .ok (baseDecls cfg ++ noNATDecls (Value.ref "VPC") cfg.AvailabilityZones ++
            subnetDecls cfg (Value.ref "VPC") none .Private (privList cfg)
              (subnetIndexStart cfg .Private))
        ⟨subnetResourcesOf none .Private (privList cfg), []⟩ := by
  by_cases hAuto : cfg.VPC.AutoAllocateIPv6 <;>
    simp [buildVPC, NewIPv4VPCResourceSet, addResources, hID, hPriv, hAuto, newResource,
      noNAT_eq, addSubnets_eq, baseDecls, privList, List.append_assoc]

theorem buildVPC_gatewayed (cfg : ClusterConfig) (directory : List RouteTableRecord)
    (hPriv : isFullyPrivate cfg = false) (hID : cfg.VPC.ID = "") :
    buildVPC cfg directory =
      match addNATGateways cfg (Value.ref "VPC") (preNATDecls cfg) with
      | .err rs5 e => .err rs5 e
      | .abort => .abort
      | .ok rs5 =>
        .ok (rs5 ++ subnetDecls cfg (Value.ref "VPC") none .Private (privList cfg)
              (subnetIndexStart cfg .Private))
          ⟨subnetResourcesOf none .Private (privList cfg),
            subnetResourcesOf (some (Value.ref "PublicRouteTable")) .Public (pubList cfg)⟩ := by
  by_cases hAuto : cfg.VPC.AutoAllocateIPv6 <;>
    simp [buildVPC, NewIPv4VPCResourceSet, addResources, hID, hPriv, hAuto, newResource,
      addSubnets_eq, baseDecls, gatewayDecls, preNATDecls, privList, pubList,
      List.append_assoc]

/-! Allowed-kind lemmas for the fully-private graph (claim C1). -/

theorem noNATDecls_allowed (vpcID : Value) (azs : List String) :
    ∀ x ∈ noNATDecls vpcID azs, fullyPrivateAllowed x.2 = true := by
  induction azs with
  | nil => intro x hx; cases hx
  | cons a rest ih =>
    intro x hx
    simp only [noNATDecls, List.mem_cons] at hx
    rcases hx with rfl | rfl | h
    · rfl
    · rfl
    · exact ih x h

theorem subnetDecls_private_allowed (cfg : ClusterConfig) (vpcID : Value)
    (refRT : Option Value) (subs : List (String × AZSubnetSpec)) :
    ∀ (idx : Nat), ∀ x ∈ subnetDecls cfg vpcID refRT .Private subs idx,
      fullyPrivateAllowed x.2 = true := by
  induction subs with
  | nil => intro idx x hx; cases hx
  | cons hd rest ih =>
    intro idx x hx
    obtain ⟨name, spec⟩ := hd
    simp only [subnetDecls] at hx
    rcases List.mem_cons.mp hx with rfl | hx
    · rfl
    rcases List.mem_cons.mp hx with rfl | hx
    · rfl
    rcases List.mem_append.mp hx with hx | hx
    · split at hx
      · rcases List.mem_singleton.mp hx with rfl
        rfl
      · cases hx
    · exact ih _ x hx

theorem fullyPrivateAllowed_excl (r : Resource) (h : fullyPrivateAllowed r = true) :
    isInternetGatewayRes r = false ∧ isNatGatewayRes r = false ∧
    isEIP r = false ∧ isPublicSubnetRes r = false := by
  cases r <;> simp_all [fullyPrivateAllowed, isInternetGatewayRes, isNatGatewayRes, isEIP,
    isPublicSubnetRes]

theorem countRes_eq_zero (p : Resource → Bool) (rs : ResourceSet)
    (h : ∀ x ∈ rs, p x.2 = false) : countRes p rs = 0 := by
  have : rs.filter (fun x => p x.2) = [] := by
    rw [List.filter_eq_nil_iff]
    intro a ha
    simp [h a ha]
  simp [countRes, this]

/-! Claim C1. -/

/-- Claim C1 counterexample: a fully-private fresh build with secondary auto-allocation
declares the secondary VPC CIDR block, a resource outside the claim's list of VPC, private
route tables, private subnets and their associations. -/
theorem claimC1_counterexample :
    isFullyPrivate cfgAutoPrivate = true ∧ cfgAutoPrivate.VPC.ID = "" ∧
    buildVPC cfgAutoPrivate [] =
      .ok [("VPC", Resource.vpc "192.168.0.0/16"),
           ("AutoAllocatedCIDRv6", Resource.vpcCidrBlock (Value.ref "VPC"))] ⟨[], []⟩ ∧
    claimedFullyPrivateKinds (Resource.vpcCidrBlock (Value.ref "VPC")) = false := by decide

/-- Claim C1 (amended): a fully-private fresh build declares no internet gateway, no NAT
gateway, no elastic address and no public subnet: only the VPC, the optional secondary
address-block declarations (the VPC CIDR block and per-subnet CIDR blocks), the per-zone
private route tables, the private subnets, and their route-table associations appear in the
produced graph. -/
theorem claimC1_amended (cfg : ClusterConfig) (directory : List RouteTableRecord)
    (hPriv : isFullyPrivate cfg = true) (hID : cfg.VPC.ID = "") :
    ∃ rs details, buildVPC cfg directory = .ok rs details ∧
      rs.all (fun x => fullyPrivateAllowed x.2) = true ∧
      countRes isInternetGatewayRes rs = 0 ∧
      countRes isNatGatewayRes rs = 0 ∧
      countRes isEIP rs = 0 ∧
      countRes isPublicSubnetRes rs = 0 := by
  refine ⟨_, _, buildVPC_fullyPrivate cfg directory hPriv hID, ?_⟩
  have hall : ∀ x ∈ baseDecls cfg ++ noNATDecls (Value.ref "VPC") cfg.AvailabilityZones ++
      subnetDecls cfg (Value.ref "VPC") none .Private (privList cfg)
        (subnetIndexStart cfg .Private), fullyPrivateAllowed x.2 = true := by
    intro x hx
    rcases List.mem_append.mp hx with hx2 | hx2
    · rcases List.mem_append.mp hx2 with hx3 | hx3
      · unfold baseDecls at hx3
        split at hx3
        · rcases List.mem_cons.mp hx3 with rfl | hx3
          · rfl
          rcases List.mem_singleton.mp hx3 with rfl
          rfl
        · rcases List.mem_singleton.mp hx3 with rfl
          rfl
      · exact noNATDecls_allowed _ _ x hx3
    · exact subnetDecls_private_allowed cfg _ none (privList cfg) _ x hx2
  refine ⟨List.all_eq_true.mpr hall, ?_, ?_, ?_, ?_⟩ <;>
    exact countRes_eq_zero _ _ (fun x hx => by
      have hexcl := fullyPrivateAllowed_excl x.2 (hall x hx)
      simp [hexcl.1, hexcl.2.1, hexcl.2.2.1, hexcl.2.2.2])

/-- Witness for the amended claim C1 at a concrete one-zone fully-private build. -/
theorem claimC1_amended_witness :
    ∃ rs details, buildVPC cfgOnePrivate [] = .ok rs details ∧
      rs.all (fun x => fullyPrivateAllowed x.2) = true ∧
      countRes isInternetGatewayRes rs = 0 ∧
      countRes isNatGatewayRes rs = 0 ∧
      countRes isEIP rs = 0 ∧
      countRes isPublicSubnetRes rs = 0 :=
  claimC1_amended cfgOnePrivate [] rfl rfl

/-! Secondary-CIDR index accounting (claim C4). -/

theorem cidrIndices_baseDecls (cfg : ClusterConfig) : cidrIndices (baseDecls cfg) = [] := by
  unfold baseDecls
  split <;> rfl

theorem cidrIndices_gatewayDecls (vpcID : Value) : cidrIndices (gatewayDecls vpcID) = [] := rfl

theorem cidrIndices_noNATDecls (vpcID : Value) (azs : List String) :
    cidrIndices (noNATDecls vpcID azs) = [] := by
  induction azs with
  | nil => rfl
  | cons a rest ih => simpa [noNATDecls, cidrIndices, List.filterMap_cons] using ih

theorem cidrIndices_haNATDecls (vpcID : Value) (azs : List String) :
    cidrIndices (haNATDecls vpcID azs) = [] := by
  induction azs with
  | nil => rfl
  | cons a rest ih => simpa [haNATDecls, cidrIndices, List.filterMap_cons] using ih

theorem cidrIndices_singleNATGoDecls (vpcID refNG : Value) (azs : List String) :
    cidrIndices (singleNATGoDecls vpcID refNG azs) = [] := by
  induction azs with
  | nil => rfl
  | cons a rest ih => simpa [singleNATGoDecls, cidrIndices, List.filterMap_cons] using ih

theorem cidrIndices_singleNATDecls (vpcID : Value) (first : String) (azs : List String) :
    cidrIndices (singleNATDecls vpcID first azs) = [] := by
  simpa [singleNATDecls, cidrIndices, List.filterMap_cons] using
    cidrIndices_singleNATGoDecls vpcID (Value.ref "NATGateway") azs

theorem cidrIndices_subnetDecls (cfg : ClusterConfig) (vpcID : Value) (refRT : Option Value)
    (topology : SubnetTopology) (hAuto : cfg.VPC.AutoAllocateIPv6 = true) :
    ∀ (subs : List (String × AZSubnetSpec)) (idx : Nat),
      cidrIndices (subnetDecls cfg vpcID refRT topology subs idx) =
        List.range' idx subs.length := by
  intro subs
  induction subs with
  | nil => intro idx; rfl
  | cons hd rest ih =>
    intro idx
    obtain ⟨name, spec⟩ := hd
    rw [show List.range' idx (((name, spec) :: rest).length) = idx :: List.range' (idx + 1) rest.length
      from by simp [List.range']]
    have ih2 := ih (idx + 1)
    simp only [cidrIndices] at ih2
    simp [subnetDecls, hAuto, cidrIndices, List.filterMap_cons, List.filterMap_append, ih2]

theorem addNATGateways_ok_decomp (cfg : ClusterConfig) (vpcID : Value) (rs rs5 : ResourceSet)
    (h : addNATGateways cfg vpcID rs = .ok rs5) :
    ∃ extra, rs5 = rs ++ extra ∧ cidrIndices extra = [] := by
  unfold addNATGateways at h
  by_cases h1 : cfg.VPC.NAT.Gateway = ClusterHighlyAvailableNAT
  · rw [if_pos h1] at h
    cases h
    exact ⟨haNATDecls vpcID cfg.AvailabilityZones, haNAT_eq cfg vpcID rs,
      cidrIndices_haNATDecls vpcID cfg.AvailabilityZones⟩
  · rw [if_neg h1] at h
    by_cases h2 : cfg.VPC.NAT.Gateway = ClusterSingleNAT
    · rw [if_pos h2] at h
      rcases hAz : cfg.AvailabilityZones with _ | ⟨first, rest⟩
      · simp [singleNAT, hAz] at h
      · rw [singleNAT_eq cfg vpcID rs first rest hAz] at h
        cases h
        exact ⟨singleNATDecls vpcID first cfg.AvailabilityZones, rfl,
          cidrIndices_singleNATDecls vpcID first cfg.AvailabilityZones⟩
    · rw [if_neg h2] at h
      by_cases h3 : cfg.VPC.NAT.Gateway = ClusterDisableNAT
      · rw [if_pos h3] at h
        cases h
        exact ⟨noNATDecls vpcID cfg.AvailabilityZones, noNAT_eq cfg vpcID rs,
          cidrIndices_noNATDecls vpcID cfg.AvailabilityZones⟩
      · rw [if_neg h3] at h
        exact NATResult.noConfusion h

/-! Claim C4. -/

/-- Claim C4 counterexample: the same fully-private spec built under the two enumeration
orders of its private mapping assigns secondary-CIDR index 1 to subnet a in one run and
index 2 in the other, so the index is not stable across repeated builds; and in a build
with two public subnets but one zone the assigned indices are 0, 1, 1 — not pairwise
distinct. -/
theorem claimC4_counterexample :
    builtCidrIndexOf cfgOrdAB "PrivateACIDRv6" = some 1 ∧
    builtCidrIndexOf cfgOrdBA "PrivateACIDRv6" = some 2 ∧
    cfgOrdAB.VPC.Subnets.Private = some [("a", spA), ("b", spB)] ∧
    cfgOrdBA.VPC.Subnets.Private = some [("b", spB), ("a", spA)] ∧
    builtCidrIndices cfgCollide = some [0, 1, 1] ∧
    ([0, 1, 1] : List Nat).Nodup = false := by decide

/-- Claim C4 (amended): with secondary auto-allocation on a fresh build, the index sequence
is exactly the public pass counting up from 0 followed by the private pass counting up
from zoneCount (for a fully-private build, the private pass alone) — so each subnet's index
is determined by its position in its role's enumeration pass, and two runs agree exactly
when the enumeration order of the name-keyed mapping is the same (which Go map iteration
does not guarantee); the indices of one build are pairwise distinct whenever the public
subnet count does not exceed the zone count. -/
theorem claimC4_amended (cfg : ClusterConfig) (directory : List RouteTableRecord)
    (hAuto : cfg.VPC.AutoAllocateIPv6 = true) (hID : cfg.VPC.ID = "") :
    ∀ l, builtCidrIndicesD cfg directory = some l →
      l = (if isFullyPrivate cfg then
            List.range' cfg.AvailabilityZones.length (privList cfg).length
          else
            List.range' 0 (pubList cfg).length ++
              List.range' cfg.AvailabilityZones.length (privList cfg).length) ∧
      ((pubList cfg).length ≤ cfg.AvailabilityZones.length → l.Nodup) := by
  intro l hl
  unfold builtCidrIndicesD at hl
  by_cases hP : isFullyPrivate cfg
  · rw [buildVPC_fullyPrivate cfg directory hP hID] at hl
    dsimp only at hl
    injection hl with hl
    have hcidr : cidrIndices
        (baseDecls cfg ++ noNATDecls (Value.ref "VPC") cfg.AvailabilityZones ++
          subnetDecls cfg (Value.ref "VPC") none .Private (privList cfg)
            (subnetIndexStart cfg .Private)) =
        List.range' cfg.AvailabilityZones.length (privList cfg).length := by
      rw [cidrIndices_append, cidrIndices_append, cidrIndices_baseDecls,
        cidrIndices_noNATDecls, cidrIndices_subnetDecls cfg _ _ _ hAuto]
      simp [subnetIndexStart, hAuto]
    rw [← hl, hcidr]
    exact ⟨by rw [if_pos hP], fun _ => List.nodup_range' _ _⟩
  · have hP2 : isFullyPrivate cfg = false := by simpa using hP
    rw [buildVPC_gatewayed cfg directory hP2 hID] at hl
    cases haddn : addNATGateways cfg (Value.ref "VPC") (preNATDecls cfg) with
    | err r e => rw [haddn] at hl; simp at hl
    | abort => rw [haddn] at hl; simp at hl
    | ok rs5 =>
      rw [haddn] at hl
      dsimp only at hl
      injection hl with hl
      obtain ⟨extra, hex, hcx⟩ :=
        addNATGateways_ok_decomp cfg (Value.ref "VPC") (preNATDecls cfg) rs5 haddn
      have hcidr : cidrIndices (rs5 ++ subnetDecls cfg (Value.ref "VPC") none .Private
          (privList cfg) (subnetIndexStart cfg .Private)) =
          List.range' 0 (pubList cfg).length ++
            List.range' cfg.AvailabilityZones.length (privList cfg).length := by
        rw [hex, cidrIndices_append, cidrIndices_append]
        unfold preNATDecls
        rw [cidrIndices_append, cidrIndices_append, cidrIndices_baseDecls,
          cidrIndices_gatewayDecls, cidrIndices_subnetDecls cfg _ _ _ hAuto, hcx,
          cidrIndices_subnetDecls cfg _ _ _ hAuto]
        simp [subnetIndexStart, hAuto, privList, pubList]
      rw [← hl, hcidr]
      constructor
      · rw [if_neg (by simp [hP2])]
      · intro hle
        rw [List.nodup_append]
        refine ⟨List.nodup_range' _ _, List.nodup_range' _ _, ?_⟩
        intro a ha hb
        have h1 := (List.mem_range'_1).mp ha
        have h2 := (List.mem_range'_1).mp hb
        omega

/-- Witness for the amended claim C4 at the concrete fully-private two-subnet build. -/
theorem claimC4_amended_witness :
    ([1, 2] : List Nat) =
      (if isFullyPrivate cfgOrdAB then
        List.range' cfgOrdAB.AvailabilityZones.length (privList cfgOrdAB).length
      else
        List.range' 0 (pubList cfgOrdAB).length ++
          List.range' cfgOrdAB.AvailabilityZones.length (privList cfgOrdAB).length) ∧
    ((pubList cfgOrdAB).length ≤ cfgOrdAB.AvailabilityZones.length →
      ([1, 2] : List Nat).Nodup) :=
  claimC4_amended cfgOrdAB [] rfl rfl [1, 2] (by decide)

/-! Go-map lemmas for the import association sweep (claim C2). -/

theorem mLookup_append (m1 m2 : List (String × String)) (k : String) :
    mLookup (m1 ++ m2) k =
      match mLookup m1 k with
      | some v => some v
      | none => mLookup m2 k := by
  induction m1 with
  | nil => simp [mLookup]
  | cons p rest ih =>
    by_cases hp : p.1 = k <;> simp [mLookup, hp, ih]

theorem mLookup_replace_self (m : List (String × String)) (k v : String)
    (h : m.any (fun p => p.1 = k) = true) :
    mLookup (m.map (fun p => if p.1 = k then (k, v) else p)) k = some v := by
  induction m with
  | nil => cases h
  | cons p rest ih =>
    by_cases hp : p.1 = k
    · simp [mLookup, hp]
    · have h2 : rest.any (fun p => p.1 = k) = true := by
        rcases List.any_eq_true.mp h with ⟨x, hx, hpx⟩
        rcases List.mem_cons.mp hx with rfl | hx2
        · exact absurd (by simpa using hpx) hp
        · exact List.any_eq_true.mpr ⟨x, hx2, hpx⟩
      simp [mLookup, hp, ih h2]

theorem mLookup_append_self (m : List (String × String)) (k v : String)
    (hall : ∀ x ∈ m, x.1 ≠ k) :
    mLookup (m ++ [(k, v)]) k = some v := by
  induction m with
  | nil => simp [mLookup]
  | cons p rest ih =>
    have hp := hall p (List.mem_cons_self p rest)
    simp only [List.cons_append, mLookup, if_neg hp]
    exact ih (fun x hx => hall x (List.mem_cons_of_mem p hx))

theorem mLookup_mapInsert_self (m : List (String × String)) (k v : String) :
    mLookup (mapInsert m k v) k = some v := by
  unfold mapInsert
  split
  · rename_i hany
    exact mLookup_replace_self m k v hany
  · rename_i hany
    refine mLookup_append_self m k v ?_
    intro x hx
    have h2 := List.any_eq_false.mp (Bool.eq_false_iff.mpr hany) x hx
    simpa using h2

theorem mLookup_replace_ne (m : List (String × String)) (k v k2 : String) (hne : k2 ≠ k) :
    mLookup (m.map (fun p => if p.1 = k then (k, v) else p)) k2 = mLookup m k2 := by
  have hkk : ¬(k = k2) := fun hc => hne hc.symm
  induction m with
  | nil => rfl
  | cons p rest ih =>
    by_cases hp : p.1 = k
    · have hp3 : ¬(p.1 = k2) := by rw [hp]; exact hkk
      simp [mLookup, hp, hp3, hkk, ih]
    · by_cases hq : p.1 = k2 <;> simp [mLookup, hp, hq, hne, ih]

theorem mLookup_mapInsert_ne (m : List (String × String)) (k v k2 : String) (hne : k2 ≠ k) :
    mLookup (mapInsert m k v) k2 = mLookup m k2 := by
  unfold mapInsert
  split
  · exact mLookup_replace_ne m k v k2 hne
  · rw [mLookup_append]
    cases hm : mLookup m k2 with
    | some v2 => rfl
    | none =>
      have hkk : ¬(k = k2) := fun hc => hne hc.symm
      simp [mLookup, hkk]

/-! The association loops of importRouteTables (claim C2). -/

theorem addAssociations_err (rtID : String) :
    ∀ (as : List RouteTableAssociationRecord) (m : List (String × String)),
      as.any (fun a => a.Main) = true →
      addAssociations rtID as m = .error mainRouteTableError
  | [], _, h => by cases h
  | a :: rest, m, h => by
    by_cases ha : a.Main
    · simp [addAssociations, ha]
    · have h2 : rest.any (fun a => a.Main) = true := by
        rcases List.any_eq_true.mp h with ⟨x, hx, hpx⟩
        rcases List.mem_cons.mp hx with rfl | hx2
        · exact absurd hpx (by simpa using ha)
        · exact List.any_eq_true.mpr ⟨x, hx2, hpx⟩
      simp [addAssociations, ha,
        addAssociations_err rtID rest (mapInsert m a.SubnetId rtID) h2]

theorem addAssociations_ok (rtID : String) :
    ∀ (as : List RouteTableAssociationRecord) (m : List (String × String)),
      as.any (fun a => a.Main) = false →
      addAssociations rtID as m = .ok (insertAssocsPure rtID as m)
  | [], _, _ => rfl
  | a :: rest, m, h => by
    have ha : a.Main = false := by
      simpa using List.any_eq_false.mp h a (List.mem_cons_self a rest)
    have h2 : rest.any (fun a => a.Main) = false :=
      List.any_eq_false.mpr fun x hx => List.any_eq_false.mp h x (List.mem_cons_of_mem a hx)
    simp [addAssociations, insertAssocsPure, ha,
      addAssociations_ok rtID rest (mapInsert m a.SubnetId rtID) h2]

theorem buildSubnetRoutes_err :
    ∀ (rts : List RouteTableRecord) (m : List (String × String)), hasMain rts = true →
      buildSubnetRoutes rts m = .error mainRouteTableError
  | [], _, h => by cases h
  | rt :: rest, m, h => by
    have h2 : ((rt :: rest).any fun rt => rt.Associations.any fun a => a.Main) = true := h
    by_cases hb : rt.Associations.any (fun a => a.Main) = true
    · simp [buildSubnetRoutes, addAssociations_err rt.RouteTableId rt.Associations m hb]
    · have hb2 : rt.Associations.any (fun a => a.Main) = false := Bool.eq_false_iff.mpr hb
      have h3 : hasMain rest = true := by
        rcases List.any_eq_true.mp h2 with ⟨x, hx, hpx⟩
        rcases List.mem_cons.mp hx with rfl | hx2
        · exact absurd hpx (by simp [hb2])
        · exact List.any_eq_true.mpr ⟨x, hx2, hpx⟩
      simp [buildSubnetRoutes, addAssociations_ok rt.RouteTableId rt.Associations m hb2,
        buildSubnetRoutes_err rest _ h3]

theorem buildSubnetRoutes_ok :
    ∀ (rts : List RouteTableRecord) (m : List (String × String)), hasMain rts = false →
      buildSubnetRoutes rts m = .ok (routesPure rts m)
  | [], _, _ => rfl
  | rt :: rest, m, h => by
    have h2 : ((rt :: rest).any fun rt => rt.Associations.any fun a => a.Main) = false := h
    have hb : rt.Associations.any (fun a => a.Main) = false := by
      simpa using List.any_eq_false.mp h2 rt (List.mem_cons_self rt rest)
    have h3 : hasMain rest = false :=
      List.any_eq_false.mpr fun x hx => List.any_eq_false.mp h2 x (List.mem_cons_of_mem rt hx)
    simp [buildSubnetRoutes, routesPure,
      addAssociations_ok rt.RouteTableId rt.Associations m hb,
      buildSubnetRoutes_ok rest _ h3]

/-! Lookup characterization of the error-free association sweep (claim C2). -/

theorem mLookup_insertAssocsPure (rtID : String) :
    ∀ (as : List RouteTableAssociationRecord) (m : List (String × String)) (sid : String),
      mLookup (insertAssocsPure rtID as m) sid =
        if as.any (fun a => a.SubnetId = sid) then some rtID else mLookup m sid
  | [], m, sid => by simp [insertAssocsPure]
  | a :: rest, m, sid => by
    rw [show insertAssocsPure rtID (a :: rest) m =
      insertAssocsPure rtID rest (mapInsert m a.SubnetId rtID) from rfl]
    rw [mLookup_insertAssocsPure rtID rest (mapInsert m a.SubnetId rtID) sid]
    by_cases ha : a.SubnetId = sid
    · by_cases hr : rest.any (fun a => a.SubnetId = sid) = true
      · simp [List.any_cons, ha, hr]
      · have hr2 := Bool.eq_false_iff.mpr hr
        subst ha
        simp [List.any_cons, hr2, mLookup_mapInsert_self]
    · have hne : sid ≠ a.SubnetId := fun hc => ha hc.symm
      by_cases hr : rest.any (fun a => a.SubnetId = sid) = true
      · simp [List.any_cons, ha, hr]
      · have hr2 := Bool.eq_false_iff.mpr hr
        simp [List.any_cons, ha, hr2, mLookup_mapInsert_ne m a.SubnetId rtID sid hne]

theorem mLookup_routesPure :
    ∀ (rts : List RouteTableRecord) (m : List (String × String)) (sid : String),
      mLookup (routesPure rts m) sid =
        match lookupAssoc rts sid with
        | some v => some v
        | none => mLookup m sid
  | [], m, sid => by simp [routesPure, lookupAssoc]
  | rt :: rest, m, sid => by
    rw [show routesPure (rt :: rest) m =
      routesPure rest (insertAssocsPure rt.RouteTableId rt.Associations m) from rfl]
    rw [mLookup_routesPure rest _ sid]
    rw [show lookupAssoc (rt :: rest) sid =
      (match lookupAssoc rest sid with
       | some v => some v
       | none => if recordHas rt sid then some rt.RouteTableId else none) from rfl]
    cases hla : lookupAssoc rest sid with
    | some v => simp
    | none =>
      rw [mLookup_insertAssocsPure rt.RouteTableId rt.Associations m sid]
      by_cases hc : rt.Associations.any (fun a => a.SubnetId = sid) = true
      · simp [recordHas, hc]
      · have hc2 := Bool.eq_false_iff.mpr hc
        simp [recordHas, hc2]

theorem append_eq_singleton_cases {α : Type} (a b : List α) (x : α) (h : a ++ b = [x]) :
    (a = [] ∧ b = [x]) ∨ (a = [x] ∧ b = []) := by
  cases a with
  | nil => exact Or.inl ⟨rfl, by simpa using h⟩
  | cons y ys =>
    rw [List.cons_append] at h
    injection h with h1 h2
    rcases List.append_eq_nil.mp h2 with ⟨rfl, rfl⟩
    subst h1
    exact Or.inr ⟨rfl, rfl⟩

theorem mem_assocs_head (rt : RouteTableRecord) (sid x : String)
    (hx : x ∈ rt.Associations.filterMap
      (fun a => if a.SubnetId = sid then some rt.RouteTableId else none)) :
    x = rt.RouteTableId := by
  rcases List.mem_filterMap.mp hx with ⟨a, _, hfa⟩
  by_cases h : a.SubnetId = sid <;> simp [h] at hfa
  exact hfa.symm

theorem assocs_head_nil_iff (rt : RouteTableRecord) (sid : String) :
    rt.Associations.filterMap
      (fun a => if a.SubnetId = sid then some rt.RouteTableId else none) = [] ↔
    recordHas rt sid = false := by
  rw [List.filterMap_eq_nil_iff]
  constructor
  · intro h
    refine List.any_eq_false.mpr ?_
    intro a ha hpa
    have := h a ha
    rw [if_pos (by simpa using hpa)] at this
    cases this
  · intro h a ha
    have := List.any_eq_false.mp h a ha
    rw [if_neg (by simpa using this)]

theorem lookupAssoc_eq_none :
    ∀ (rts : List RouteTableRecord) (sid : String),
      lookupAssoc rts sid = none ↔ assocsOf rts sid = []
  | [], sid => by simp [lookupAssoc, assocsOf]
  | rt :: rest, sid => by
    rw [show lookupAssoc (rt :: rest) sid =
      (match lookupAssoc rest sid with
       | some v => some v
       | none => if recordHas rt sid then some rt.RouteTableId else none) from rfl]
    rw [show assocsOf (rt :: rest) sid =
      rt.Associations.filterMap
        (fun a => if a.SubnetId = sid then some rt.RouteTableId else none) ++
        assocsOf rest sid from rfl]
    rw [List.append_eq_nil, assocs_head_nil_iff]
    cases hla : lookupAssoc rest sid with
    | some v =>
      have : assocsOf rest sid ≠ [] := by
        intro hc
        have h2 := (lookupAssoc_eq_none rest sid).mpr hc
        rw [hla] at h2
        cases h2
      simp [this]
    | none =>
      have hr : assocsOf rest sid = [] := (lookupAssoc_eq_none rest sid).mp hla
      by_cases hc : recordHas rt sid = true
      · simp [hc]
      · have hc2 := Bool.eq_false_iff.mpr hc
        simp [hc2, hr]

theorem lookupAssoc_singleton :
    ∀ (rts : List RouteTableRecord) (sid rtid : String),
      assocsOf rts sid = [rtid] → lookupAssoc rts sid = some rtid
  | [], _, _, h => by cases h
  | rt :: rest, sid, rtid, h => by
    have hh : rt.Associations.filterMap
        (fun a => if a.SubnetId = sid then some rt.RouteTableId else none) ++
        assocsOf rest sid = [rtid] := h
    rw [show lookupAssoc (rt :: rest) sid =
      (match lookupAssoc rest sid with
       | some v => some v
       | none => if recordHas rt sid then some rt.RouteTableId else none) from rfl]
    rcases append_eq_singleton_cases _ _ _ hh with ⟨h1, h2⟩ | ⟨h1, h2⟩
    · rw [lookupAssoc_singleton rest sid rtid h2]
    · have hnone := (lookupAssoc_eq_none rest sid).mpr h2
      have hmemb : rtid ∈ rt.Associations.filterMap
          (fun a => if a.SubnetId = sid then some rt.RouteTableId else none) := by
        rw [h1]; exact List.mem_singleton.mpr rfl
      have hid := mem_assocs_head rt sid rtid hmemb
      have hhas : recordHas rt sid = true := by
        rcases Bool.eq_false_or_eq_true (recordHas rt sid) with hc | hc
        · exact hc
        · rw [← assocs_head_nil_iff] at hc
          rw [hc] at h1
          cases h1
      rw [hnone]
      simp [hhas, hid]

theorem assocsOf_describe :
    ∀ (directory : List RouteTableRecord) (ids : List String) (sid : String), sid ∈ ids →
      assocsOf (describeRouteTables directory ids) sid = assocsOf directory sid
  | [], _, _, _ => rfl
  | rt :: rest, ids, sid, hsid => by
    show assocsOf (List.filter _ (rt :: rest)) sid = _
    rw [List.filter_cons]
    by_cases hk : rt.Associations.any (fun a => ids.contains a.SubnetId) = true
    · simp only [hk, if_true]
      rw [show assocsOf (rt :: List.filter
          (fun rt => rt.Associations.any fun a => ids.contains a.SubnetId) rest) sid =
        rt.Associations.filterMap
          (fun a => if a.SubnetId = sid then some rt.RouteTableId else none) ++
          assocsOf (describeRouteTables rest ids) sid from rfl]
      rw [assocsOf_describe rest ids sid hsid]
      rfl
    · have hk2 := Bool.eq_false_iff.mpr hk
      simp only [hk2, Bool.false_eq_true, if_false]
      have hhead : rt.Associations.filterMap
          (fun a => if a.SubnetId = sid then some rt.RouteTableId else none) = [] := by
        rw [List.filterMap_eq_nil_iff]
        intro a ha
        by_cases has : a.SubnetId = sid
        · exfalso
          have hcont : ids.contains a.SubnetId = true := by
            rw [has]; exact List.elem_eq_true_of_mem hsid
          have : rt.Associations.any (fun a => ids.contains a.SubnetId) = true :=
            List.any_eq_true.mpr ⟨a, ha, hcont⟩
          rw [this] at hk2
          cases hk2
        · rw [if_neg has]
      show assocsOf (describeRouteTables rest ids) sid = _
      rw [assocsOf_describe rest ids sid hsid]
      rw [show assocsOf (rt :: rest) sid = rt.Associations.filterMap
          (fun a => if a.SubnetId = sid then some rt.RouteTableId else none) ++
          assocsOf rest sid from rfl]
      rw [hhead, List.nil_append]

/-! The import resource construction (claim C2). -/

theorem makeSubnetResourcesGo_ok (routes : List (String × String)) :
    ∀ (subs : List (String × AZSubnetSpec)) (acc : List SubnetResource),
      (∀ t ∈ subs, mLookup routes t.2.ID ≠ none) →
      makeSubnetResourcesGo (some routes) subs acc =
        .ok (acc ++ subs.map (fun p =>
          ⟨Value.str p.2.ID, (mLookup routes p.2.ID).map Value.str, p.2.AZ⟩))
  | [], acc, _ => by simp [makeSubnetResourcesGo]
  | (n, network) :: rest, acc, h => by
    cases hlk : mLookup routes network.ID with
    | none => exact absurd hlk (h (n, network) (List.mem_cons_self _ _))
    | some rt =>
      simp only [makeSubnetResourcesGo, hlk]
      rw [makeSubnetResourcesGo_ok routes rest _
        (fun t ht => h t (List.mem_cons_of_mem _ ht))]
      simp [hlk]

theorem makeSubnetResourcesGo_err (routes : List (String × String)) :
    ∀ (pre : List (String × AZSubnetSpec)) (name : String) (sp : AZSubnetSpec)
      (post : List (String × AZSubnetSpec)) (acc : List SubnetResource),
      (∀ t ∈ pre, mLookup routes t.2.ID ≠ none) →
      mLookup routes sp.ID = none →
      makeSubnetResourcesGo (some routes) (pre ++ (name, sp) :: post) acc =
        .error (subnetNotFoundError sp.ID)
  | [], name, sp, post, acc, _, hmiss => by
    simp [makeSubnetResourcesGo, hmiss]
  | (n, network) :: pre, name, sp, post, acc, hpre, hmiss => by
    cases hlk : mLookup routes network.ID with
    | none => exact absurd hlk (hpre (n, network) (List.mem_cons_self _ _))
    | some rt =>
      simp only [List.cons_append, makeSubnetResourcesGo, hlk]
      exact makeSubnetResourcesGo_err routes pre name sp post _
        (fun t ht => hpre t (List.mem_cons_of_mem _ ht)) hmiss

/-! Claim C2. -/

/-- Claim C2 counterexample: subnet-1 has no association on record in the directory, yet
the fully-private import of the two subnets fails with the main-route-table invariant
error (raised by subnet-2's main association), not with a not-found error naming
subnet-1 — the not-found branch is not taken whenever any discovered association is main. -/
theorem claimC2_counterexample :
    assocsOf dirMainOnly "subnet-1" = [] ∧
    ("s1", (⟨"az1", "192.168.0.0/19", "subnet-1"⟩ : AZSubnetSpec)) ∈ subsTwo ∧
    importPrivateSubnets dirMainOnly subsTwo = .error mainRouteTableError ∧
    mainRouteTableError ≠ subnetNotFoundError "subnet-1" :=
  ⟨by decide, by decide, by rfl, by decide⟩

/-- Claim C2 (amended): import reconciliation of private subnets under fully-private mode
is a prioritized trichotomy. (1) If any association discovered by the route-table query is
flagged main, the operation fails with the invariant-violation error. (2) Otherwise, if a
subnet has no association on record (and every subnet before it in enumeration order has
one), the operation fails with the not-found error naming that subnet. (3) Otherwise, when
every subnet has an association, a subnet whose associations are exactly one non-main
table gets that table's identifier as its SubnetResource route-table reference. -/
theorem claimC2_amended (directory : List RouteTableRecord)
    (subnets : List (String × AZSubnetSpec)) :
    (hasMain (queriedTables directory subnets) = true →
      importPrivateSubnets directory subnets = .error mainRouteTableError) ∧
    (hasMain (queriedTables directory subnets) = false →
      ∀ (pre : List (String × AZSubnetSpec)) (name : String) (sp : AZSubnetSpec)
        (post : List (String × AZSubnetSpec)),
        subnets = pre ++ (name, sp) :: post →
        (∀ t ∈ pre, assocsOf directory t.2.ID ≠ []) →
        assocsOf directory sp.ID = [] →
        importPrivateSubnets directory subnets = .error (subnetNotFoundError sp.ID)) ∧
    (hasMain (queriedTables directory subnets) = false →
      (∀ t ∈ subnets, assocsOf directory t.2.ID ≠ []) →
      ∀ (name : String) (sp : AZSubnetSpec) (rtid : String),
        (name, sp) ∈ subnets → assocsOf directory sp.ID = [rtid] →
        ∃ res, importPrivateSubnets directory subnets = .ok res ∧
          ∀ r ∈ res, r.Subnet = Value.str sp.ID →
            r.RouteTable = some (Value.str rtid)) := by
  have hlk : ∀ sid, mLookup (routesPure (queriedTables directory subnets) []) sid =
      lookupAssoc (queriedTables directory subnets) sid := by
    intro sid
    rw [mLookup_routesPure]
    cases lookupAssoc (queriedTables directory subnets) sid <;> rfl
  have htrans : ∀ t ∈ subnets,
      assocsOf (queriedTables directory subnets) t.2.ID = assocsOf directory t.2.ID :=
    fun t ht => assocsOf_describe directory _ t.2.ID (List.mem_map_of_mem _ ht)
  refine ⟨?_, ?_, ?_⟩
  · intro h
    have herr := buildSubnetRoutes_err (queriedTables directory subnets) [] h
    unfold importPrivateSubnets
    rw [show importRouteTables directory subnets = Except.error mainRouteTableError from herr]
  · intro h pre name sp post hsubs hpre hmiss
    subst hsubs
    have hok := buildSubnetRoutes_ok (queriedTables directory (pre ++ (name, sp) :: post)) [] h
    have hpre2 : ∀ t ∈ pre,
        mLookup (routesPure (queriedTables directory (pre ++ (name, sp) :: post)) [])
          t.2.ID ≠ none := by
      intro t ht
      have htm : t ∈ pre ++ (name, sp) :: post := List.mem_append_left _ ht
      rw [hlk]
      intro hc
      exact hpre t ht ((htrans t htm) ▸ (lookupAssoc_eq_none _ _).mp hc)
    have hspm : (name, sp) ∈ pre ++ (name, sp) :: post :=
      List.mem_append_right _ (List.mem_cons_self _ _)
    have hmiss2 : mLookup (routesPure (queriedTables directory (pre ++ (name, sp) :: post)) [])
        sp.ID = none := by
      rw [hlk]
      refine (lookupAssoc_eq_none _ _).mpr ?_
      rw [htrans (name, sp) hspm]
      exact hmiss
    unfold importPrivateSubnets
    rw [show importRouteTables directory (pre ++ (name, sp) :: post) =
      Except.ok (routesPure (queriedTables directory (pre ++ (name, sp) :: post)) []) from hok]
    show makeSubnetResources (pre ++ (name, sp) :: post)
      (some (routesPure (queriedTables directory (pre ++ (name, sp) :: post)) [])) = _
    unfold makeSubnetResources
    exact makeSubnetResourcesGo_err _ pre name sp post [] hpre2 hmiss2
  · intro h hall name sp rtid hmem hassoc
    have hok := buildSubnetRoutes_ok (queriedTables directory subnets) [] h
    have hnn : ∀ t ∈ subnets,
        mLookup (routesPure (queriedTables directory subnets) []) t.2.ID ≠ none := by
      intro t ht
      rw [hlk]
      intro hc
      exact hall t ht ((htrans t ht) ▸ (lookupAssoc_eq_none _ _).mp hc)
    refine ⟨subnets.map (fun p => ⟨Value.str p.2.ID,
      (mLookup (routesPure (queriedTables directory subnets) []) p.2.ID).map Value.str,
      p.2.AZ⟩), ?_, ?_⟩
    · unfold importPrivateSubnets
      rw [show importRouteTables directory subnets =
        Except.ok (routesPure (queriedTables directory subnets) []) from hok]
      show makeSubnetResources subnets
        (some (routesPure (queriedTables directory subnets) [])) = _
      unfold makeSubnetResources
      rw [makeSubnetResourcesGo_ok _ subnets [] hnn]
      rw [List.nil_append]
    · intro r hr hsub
      rcases List.mem_map.mp hr with ⟨t, ht, rfl⟩
      have hideq : t.2.ID = sp.ID := by simpa using hsub
      show (mLookup (routesPure (queriedTables directory subnets) []) t.2.ID).map Value.str =
        some (Value.str rtid)
      have hsg : assocsOf (queriedTables directory subnets) sp.ID = [rtid] := by
        rw [htrans (name, sp) hmem]
        exact hassoc
      rw [hideq, hlk, lookupAssoc_singleton _ sp.ID rtid hsg]
      rfl

/-- Witness for the amended claim C2: one concrete instance per branch of the
trichotomy. -/
theorem claimC2_amended_witness :
    importPrivateSubnets dirMainOnly subsTwo = .error mainRouteTableError ∧
    importPrivateSubnets dirMissingS1 subsTwo = .error (subnetNotFoundError "subnet-1") ∧
    (∃ res, importPrivateSubnets dirBothOK subsTwo = .ok res ∧
      ∀ r ∈ res, r.Subnet = Value.str "subnet-1" →
        r.RouteTable = some (Value.str "rtb-1")) := by
  refine ⟨(claimC2_amended dirMainOnly subsTwo).1 (by decide), ?_, ?_⟩
  · exact (claimC2_amended dirMissingS1 subsTwo).2.1 (by decide) [] "s1"
      ⟨"az1", "192.168.0.0/19", "subnet-1"⟩ [("s2", ⟨"az2", "192.168.32.0/19", "subnet-2"⟩)]
      rfl (by intro t ht; cases ht) (by decide)
  · exact (claimC2_amended dirBothOK subsTwo).2.2 (by decide) (by decide) "s1"
      ⟨"az1", "192.168.0.0/19", "subnet-1"⟩ "rtb-1" (by decide) (by decide)

end VpcBuilder
